import Mathlib

set_option maxRecDepth 8192

namespace PiReview

/-! Shallow embedding of the pi-review extension (src/index.ts together with the
packaged prompt templates under src/prompts).  Strings are modelled as Lean
`String`; the JavaScript string primitives used by the source
(`trim`, `replaceAll`, `join`, frontmatter regex) are modelled explicitly on
`List Char` so that every operation is executable and provable. -/

/-- Model of JS `String.prototype.trimStart` restricted to the ASCII whitespace
that actually occurs in this program (space, tab, CR, LF). -/
def trimL : List Char → List Char
  | [] => []
  | c :: rest => if c.isWhitespace then trimL rest else c :: rest

/-- Characters of a JS `trim`: drop whitespace from both ends. -/
def trimChars (l : List Char) : List Char :=
  (trimL ((trimL l).reverse)).reverse

/-- Model of JS `String.prototype.trim`. -/
def jsTrim (s : String) : String :=
  ⟨trimChars s.data⟩

/-- Boolean test that `p` starts the list `s` (character-wise). -/
def hasPref : List Char → List Char → Bool
  | [], _ => true
  | _ :: _, [] => false
  | a :: as, b :: bs => a == b && hasPref as bs

/-- Characters of JS `String.prototype.replaceAll` with a non-empty pattern:
scan left to right, replace each non-overlapping occurrence, never rescanning
the replacement.  The source only ever calls `replaceAll` with the non-empty
literals `{{SCOPE}}`, `{{REPORTS}}` and the stage-done marker, so the
empty-pattern behaviour of JS is irrelevant and guarded out.  The scan is
structurally recursive on a fuel argument so that it reduces definitionally;
any fuel at least the length of the scanned list gives the same result
(`replaceAllGo_congr`). -/
def replaceAllGo (pat repl : List Char) : List Char → Nat → List Char
  | [], _ => []
  | c :: rest, 0 => c :: rest
  | c :: rest, n + 1 =>
    if pat ≠ [] ∧ hasPref pat (c :: rest) = true then
      repl ++ replaceAllGo pat repl (rest.drop (pat.length - 1)) n
    else
      c :: replaceAllGo pat repl rest n

/-- The replace-all scan with exactly enough fuel. -/
def replaceAllList (pat repl : List Char) (s : List Char) : List Char :=
  replaceAllGo pat repl s s.length

/-- Model of JS `String.prototype.replaceAll` (non-empty pattern). -/
def jsReplaceAll (s pat repl : String) : String :=
  ⟨replaceAllList pat.data repl.data s.data⟩

/-- Whether the pattern occurs somewhere in the list. -/
def occursB (pat : List Char) : List Char → Bool
  | [] => false
  | c :: rest => hasPref pat (c :: rest) || occursB pat rest

/-- Model of JS `Array.prototype.join` on strings. -/
def joinSep (sep : String) : List String → String
  | [] => ""
  | [x] => x
  | x :: xs => x ++ (sep ++ joinSep sep xs)

/-- `sub` occurs contiguously inside `s` (lists of characters). -/
def containsL (sub s : List Char) : Prop :=
  ∃ l r, s = l ++ sub ++ r

/-- `sub` occurs contiguously inside `s` (strings). -/
def containsStr (sub s : String) : Prop :=
  containsL sub.data s.data

/-! ## Data model (src/index.ts lines 8-27) -/

/-- `ReviewTarget` tagged union (src/index.ts lines 8-12). -/
inductive ReviewTarget where
  | worktree : ReviewTarget
  | staged : ReviewTarget
  | pr (prNumber : Nat) : ReviewTarget
  | recent (baseSha : String) : ReviewTarget
deriving DecidableEq

/-- Stage kind of a `ReviewSuiteStage` (src/index.ts lines 16-18). -/
inductive StageKind where
  | review : StageKind
  | synthesize : StageKind
deriving DecidableEq

/-- One stage descriptor of the suite pipeline (src/index.ts lines 16-18). -/
structure ReviewSuiteStage where
  kind : StageKind
  id : String
  promptName : String
  label : String
deriving DecidableEq

/-- src/index.ts line 20. -/
def STAGE_DONE_MARKER : String := "[[PI_REVIEW_STAGE_DONE]]"

/-- The fixed four-stage pipeline (src/index.ts lines 22-27). -/
def DEFAULT_SUITE_STAGES : List ReviewSuiteStage :=
  [ { kind := .review, id := "overall", promptName := "review-overall", label := "Overall" },
    { kind := .review, id := "linus", promptName := "review-linus", label := "Linus" },
    { kind := .review, id := "staff", promptName := "review-staff", label := "Staff" },
    { kind := .synthesize, id := "synthesize", promptName := "review-synthesize", label := "Synthesis" } ]

/-- An accumulated per-stage report (element type of `suiteReports`,
src/index.ts line 329). -/
structure StageReport where
  stageId : String
  stageLabel : String
  text : String
deriving DecidableEq

/-- One content part of a conversation message.  The source only inspects parts
with `type === "text"` carrying a string; every other part shape is collapsed
into `other`. -/
inductive MsgPart where
  | text (s : String) : MsgPart
  | other : MsgPart
deriving DecidableEq

/-- A conversation message: only `role` and the text-bearing content parts are
observable by the extension.  A non-array `content` in the source is treated as
the empty part list, which the empty list models; timestamps are not modelled
(nothing in the extension reads them). -/
structure Message where
  role : String
  content : List MsgPart
deriving DecidableEq

/-- The module-level mutable suite state (src/index.ts lines 326-332). -/
structure SuiteState where
  suiteActive : Bool
  suiteTarget : Option ReviewTarget
  suiteStageIndex : Nat
  suiteReports : List StageReport
  suiteFreshContext : Bool
  suiteBoundaryCount : Int
  boundaryNeedsCapture : Bool
deriving DecidableEq

/-- The initial values of the module-level variables (src/index.ts lines
326-332). -/
def initialSuiteState : SuiteState :=
  { suiteActive := false
    suiteTarget := none
    suiteStageIndex := 0
    suiteReports := []
    suiteFreshContext := true
    suiteBoundaryCount := -1
    boundaryNeedsCapture := false }

/-- Observable effects of one handler execution: the sequence of
`ctx.ui.setStatus` values (`none` models `undefined`, i.e. clearing), the
`ctx.ui.notify` texts, and the `pi.sendUserMessage` payloads, each in call
order. -/
structure HandlerResult where
  state : SuiteState
  statusSets : List (Option String)
  notices : List String
  sent : List String
deriving DecidableEq

/-- Result action of the input handler; the source always returns
`{ action: "continue" }`. -/
inductive InputAction where
  | cont : InputAction
deriving DecidableEq

/-! ## Packaged prompt templates (src/prompts, raw file contents).
`reviewOverallRaw` is the packaged overall-stage template; it is one of the
repository's source files whose filename is not recorded, and its content names
itself as the overall review prompt referenced by stage `review-overall`. -/

def reviewOverallRaw : String :=
  "---\ndescription: Overall high-signal code review (review-only)\n---\n\x7b\x7bSCOPE\x7d\x7d\n\nHard rules:\n- Review only. Do NOT edit files.\n- If you spot an issue, propose a fix in prose or small patch snippets, but don\x27t apply it.\n\nFocus:\n- Correctness, edge cases, invariants\n- Error handling, observability\n- Performance/concurrency risks\n- Tests that de-risk regressions\n\nOutput a single Markdown review with sections:\n### Summary\n### Risk assessment (Low/Medium/High + why)\n### Blockers (must-fix)\n### Major issues (should-fix)\n### Minor issues (optional)\n### Tests (what\x27s missing + targeted suggestions)\n### Suggested next commands\n\nEnd your response with:\n[[PI_REVIEW_STAGE_DONE]]\n"

def reviewLinusRaw : String :=
  "---\ndescription: Linus-style blunt kernel-maintainer review (review-only)\n---\n\x7b\x7bSCOPE\x7d\x7d\n\nAdopt a Linus Torvalds / kernel maintainer lens:\n- Be blunt and ruthlessly high-signal.\n- Demand simplicity and minimal diff. Reject cleverness, unnecessary abstractions, and magic.\n- Be strict about naming, invariants, APIs, and failure modes.\n- Ask \"what breaks?\" for every change.\n- Cite exact files/functions and propose concrete fixes.\n\nHard rules:\n- Review only. Do NOT edit files.\n\nOutput sections:\n### Summary\n### Risk assessment (Low/Medium/High + why)\n### Blockers (must-fix)\n### Major issues (should-fix)\n### Minor issues (optional)\n### Tests (what\x27s missing + targeted suggestions)\n### Suggested next commands\n\nEnd your response with:\n[[PI_REVIEW_STAGE_DONE]]\n"

def reviewStaffRaw : String :=
  "---\ndescription: Staff engineer (FAANG) risk-focused review (review-only)\n---\n\x7b\x7bSCOPE\x7d\x7d\n\nAdopt a Staff Engineer lens (FAANG-style):\n- Focus on operational risk, rollouts, backwards compatibility, and long-term maintainability.\n- Demand observability (logs/metrics/traces), clear failure modes, and safe defaults.\n- Call out concurrency/idempotency pitfalls.\n- Require tests that de-risk edge cases.\n\nHard rules:\n- Review only. Do NOT edit files.\n\nOutput sections:\n### Summary\n### Risk assessment (Low/Medium/High + why)\n### Blockers (must-fix)\n### Major issues (should-fix)\n### Minor issues (optional)\n### Tests (what\x27s missing + targeted suggestions)\n### Suggested next commands\n\nEnd your response with:\n[[PI_REVIEW_STAGE_DONE]]\n"

def reviewSynthesizeRaw : String :=
  "---\ndescription: Synthesize multiple review passes into a final report\n---\nYou are synthesizing multiple independent review passes into ONE final, high-signal review.\n\nRules:\n- Deduplicate aggressively.\n- If reviewers disagree, call it out and pick a recommendation.\n- Prioritize by severity and likelihood.\n- Be concrete: reference files/functions when present.\n\nInputs:\n\x7b\x7bREPORTS\x7d\x7d\n\nOutput a single Markdown review with sections:\n### Final summary\n### Risk assessment (Low/Medium/High + why)\n### Top issues (ranked)\n### Detailed findings\n### Tests\n### Suggested next commands\n"

/-- The packaged `prompts/<name>.md` files shipped with the extension
(`existsSync` on the package path, src/index.ts lines 76-80). -/
def packagedPromptRaw (promptName : String) : Option String :=
  if promptName = "review-overall" then some reviewOverallRaw
  else if promptName = "review-linus" then some reviewLinusRaw
  else if promptName = "review-staff" then some reviewStaffRaw
  else if promptName = "review-synthesize" then some reviewSynthesizeRaw
  else none

/-- Deployment environment: the optional user override files under
`~/.pi/agent/prompts/<name>.md` (src/index.ts lines 70-74). -/
structure PromptEnv where
  userOverride : String → Option String

/-- The stock deployment: no user overrides, packaged prompts only. -/
def defaultEnv : PromptEnv :=
  { userOverride := fun _ => none }

/-! ## Frontmatter stripping (src/index.ts lines 56-59).
The regex is `---\r?\n[\s\S]*?\r?\n---(?:\r?\n)?([\s\S]*)` anchored at both
ends: an opening `---` line, a lazily matched body, the earliest following
`\r?\n---`, an optional newline, and the captured remainder, which is trimmed;
when the regex does not match, the whole content is trimmed. -/

/-- Consume the optional `\r?\n` that follows the closing `---`. -/
def dropCloseNL : List Char → List Char
  | '\r' :: '\n' :: rest => rest
  | '\n' :: rest => rest
  | rest => rest

/-- Find the earliest `\r?\n---` and return what follows it (with the optional
trailing newline consumed), the lazy-quantifier behaviour of the source
regex. -/
def scanClose : List Char → Option (List Char)
  | [] => none
  | c :: rest =>
    if hasPref ('\n' :: '-' :: '-' :: '-' :: []) (c :: rest) = true then
      some (dropCloseNL ((c :: rest).drop 4))
    else if hasPref ('\r' :: '\n' :: '-' :: '-' :: '-' :: []) (c :: rest) = true then
      some (dropCloseNL ((c :: rest).drop 5))
    else scanClose rest

/-- src/index.ts lines 56-59. -/
def stripFrontmatter (content : String) : String :=
  if hasPref ('-' :: '-' :: '-' :: '\n' :: []) content.data = true then
    match scanClose (content.data.drop 4) with
    | some rest => ⟨trimChars rest⟩
    | none => jsTrim content
  else if hasPref ('-' :: '-' :: '-' :: '\r' :: '\n' :: []) content.data = true then
    match scanClose (content.data.drop 5) with
    | some rest => ⟨trimChars rest⟩
    | none => jsTrim content
  else jsTrim content

/-- src/index.ts lines 69-83: user override first, then the packaged default,
else the empty string (the documented missing-template trigger). -/
def loadPromptText (env : PromptEnv) (promptName : String) : String :=
  match env.userOverride promptName with
  | some content => stripFrontmatter content
  | none =>
    match packagedPromptRaw promptName with
    | some content => stripFrontmatter content
    | none => ""

/-- src/index.ts lines 61-67: substitute each `{{k}}` placeholder. -/
def renderVars (template : String) (vars : List (String × String)) : String :=
  vars.foldl (fun out kv => jsReplaceAll out ("\x7b\x7b" ++ kv.1 ++ "\x7d\x7d") kv.2) template

/-- src/index.ts lines 85-147: the scope description for a target. -/
def buildScopePrompt (target : ReviewTarget) : String :=
  let common :=
    "You are doing a high-signal code review.\n\n" ++
    "Review priorities (in order):\n" ++
    "1) Correctness / logic errors\n" ++
    "2) Security / auth / secrets\n" ++
    "3) Error handling & observability (logs/metrics)\n" ++
    "4) Data correctness (schemas/migrations/serialization)\n" ++
    "5) Performance / concurrency / idempotency\n" ++
    "6) Tests (missing/weak tests)\n\n"
  match target with
  | .worktree =>
    common ++
    "Review my local working tree changes (staged + unstaged + untracked).\n\n" ++
    "Process:\n" ++
    "1) Establish scope:\n" ++
    "   - git status --porcelain=v1\n" ++
    "   - git diff --name-only\n" ++
    "   - git diff --cached --name-only\n" ++
    "   - git ls-files --others --exclude-standard\n" ++
    "2) For each changed file, inspect patches:\n" ++
    "   - git diff --patch -- <path>\n" ++
    "   - git diff --cached --patch -- <path>\n" ++
    "3) For untracked files, open and read content directly.\n"
  | .staged =>
    common ++
    "Review my staged changes only.\n\n" ++
    "Process:\n" ++
    "1) Establish scope:\n" ++
    "   - git status --porcelain=v1\n" ++
    "   - git diff --cached --name-only\n" ++
    "2) Inspect each staged file:\n" ++
    "   - git diff --cached --patch -- <path>\n"
  | .pr prNumber =>
    common ++
    "Review GitHub PR #" ++ toString prNumber ++ " in this repo.\n\n" ++
    "Process (use gh CLI):\n" ++
    "1) gh pr view " ++ toString prNumber ++ " --json title,body,author,baseRefName,headRefName\n" ++
    "2) gh pr diff " ++ toString prNumber ++ "\n" ++
    "If gh is unavailable or errors, say exactly what to run / paste instead.\n"
  | .recent baseSha =>
    common ++
    "Review the commits from base commit " ++ baseSha ++ " (inclusive) to HEAD.\n\n" ++
    "Process:\n" ++
    "1) Inspect the base commit itself:\n" ++
    "   - git show " ++ baseSha ++ "\n" ++
    "2) Try to review the full range (inclusive):\n" ++
    "   - git log --oneline --decorate " ++ baseSha ++ "^..HEAD\n" ++
    "   - git diff " ++ baseSha ++ "^..HEAD\n" ++
    "   If `" ++ baseSha ++ "^` fails (root commit), do:\n" ++
    "   - git log --oneline --decorate " ++ baseSha ++ "..HEAD\n" ++
    "   - git diff " ++ baseSha ++ "..HEAD\n"

/-- src/index.ts lines 311-322: text of the most recent assistant message. -/
def getLastAssistantText (messages : List Message) : String :=
  match (messages.filter (fun m => m.role == "assistant")).getLast? with
  | none => ""
  | some last =>
    jsTrim (joinSep "\n" (last.content.filterMap (fun p =>
      match p with
      | .text s => some s
      | .other => none)))

/-- src/index.ts lines 334-336. -/
def currentStage (s : SuiteState) : Option ReviewSuiteStage :=
  DEFAULT_SUITE_STAGES[s.suiteStageIndex]?

/-- src/index.ts lines 338-349: the value passed to
`ctx.ui.setStatus("pi-review", ·)`; `none` models `undefined`. -/
def updateSuiteStatus (s : SuiteState) : Option String :=
  if s.suiteActive = false then none
  else
    let label := match currentStage s with
      | some stage => stage.label
      | none => "?"
    some ("Review suite: " ++ label ++ " (" ++
      toString (s.suiteStageIndex + 1) ++ "/" ++ toString DEFAULT_SUITE_STAGES.length ++ ")" ++
      (if s.suiteFreshContext then " | fresh" else ""))

/-- The field assignments performed by `endSuite` (src/index.ts lines 352-357);
`suiteFreshContext` is deliberately not in the list, matching the source. -/
def resetRun (s : SuiteState) : SuiteState :=
  { s with
    suiteActive := false
    suiteTarget := none
    suiteStageIndex := 0
    suiteReports := []
    suiteBoundaryCount := -1
    boundaryNeedsCapture := false }

/-- src/index.ts lines 351-360: the single teardown path. -/
def endSuite (s : SuiteState) (reason : String) : HandlerResult :=
  { state := resetRun s
    statusSets := [updateSuiteStatus (resetRun s)]
    notices := ["Review suite ended: " ++ reason]
    sent := [] }

/-- One rendered report section of the synthesis input (src/index.ts lines
364-372). -/
def reportSection (r : StageReport) : String :=
  "## " ++ r.stageLabel ++ "\n\n" ++ "```\n" ++ jsTrim r.text ++ "\n```\n"

/-- src/index.ts lines 362-381: the prompt for a stage (the source closure
reads `suiteReports`; it is passed explicitly here). -/
def buildStagePrompt (env : PromptEnv) (target : ReviewTarget) (stage : ReviewSuiteStage)
    (reports : List StageReport) : String :=
  match stage.kind with
  | .synthesize =>
    renderVars (loadPromptText env stage.promptName)
      [("REPORTS", joinSep "\n" (reports.map reportSection))]
  | .review =>
    renderVars (loadPromptText env stage.promptName)
      [("SCOPE", jsTrim (buildScopePrompt target))]

/-- src/index.ts lines 383-403. -/
def sendCurrentStagePrompt (env : PromptEnv) (s : SuiteState) : HandlerResult :=
  match s.suiteTarget with
  | none => endSuite s "internal error: missing target"
  | some target =>
    match currentStage s with
    | none => endSuite s "done"
    | some stage =>
      if jsTrim (buildStagePrompt env target stage s.suiteReports) = "" then
        endSuite s ("missing prompt template: " ++ stage.promptName)
      else
        { state := s
          statusSets := [updateSuiteStatus s]
          notices := []
          sent := [buildStagePrompt env target stage s.suiteReports] }

/-- Backward scan for the most recent user-authored message (the loop shape at
src/index.ts lines 417-423 and 428-434). -/
def lastUserIdx (messages : List Message) : Option Nat :=
  match messages.reverse.findIdx? (fun m => m.role == "user") with
  | none => none
  | some j => some (messages.length - 1 - j)

/-- The synthetic notice inserted by the redaction filter (src/index.ts lines
442-452); the timestamp field is not modelled. -/
def noticeMessage (label : String) : Message :=
  { role := "user"
    content := [ .text ("[Review suite stage " ++ label ++
      ". Prior stage outputs are intentionally hidden. Review with fresh eyes.]") ] }

/-- src/index.ts lines 406-456: the context redaction filter.  Returns the
updated state (boundary capture mutates it) and the replacement message list
when one is produced (`none` models falling through without a return value). -/
def onContext (s : SuiteState) (messages : List Message) : SuiteState × Option (List Message) :=
  if s.suiteActive = false ∨ s.suiteFreshContext = false then (s, none)
  else
    match currentStage s with
    | none => (s, none)
    | some stage =>
      if stage.kind ≠ .review then (s, none)
      else if s.suiteStageIndex = 0 then (s, none)
      else if messages.isEmpty then (s, none)
      else
        let s1 :=
          if s.boundaryNeedsCapture then
            { s with
              suiteBoundaryCount :=
                match lastUserIdx messages with
                | some i => (i : Int)
                | none => s.suiteBoundaryCount
              boundaryNeedsCapture := false }
          else s
        if s1.suiteBoundaryCount < 0 then (s1, none)
        else
          match lastUserIdx messages with
          | none => (s1, none)
          | some lastUser =>
            if (lastUser : Int) ≤ s1.suiteBoundaryCount then (s1, none)
            else
              (s1, some ((messages.take s1.suiteBoundaryCount.toNat ++
                [noticeMessage stage.label]) ++ messages.drop lastUser))

/-- src/index.ts lines 458-487: the agent-end (turn completion) handler. -/
def onAgentEnd (env : PromptEnv) (s : SuiteState) (messages : List Message) : HandlerResult :=
  if s.suiteActive = false then
    { state := s, statusSets := [], notices := [], sent := [] }
  else
    match currentStage s with
    | none => endSuite s "done"
    | some stage =>
      if getLastAssistantText messages = "" then
        endSuite s "aborted (no assistant output) "
      else
        let s1 :=
          match stage.kind with
          | .review =>
            { s with suiteReports := s.suiteReports ++
                [({ stageId := stage.id
                    stageLabel := stage.label
                    text := jsTrim (jsReplaceAll (getLastAssistantText messages) STAGE_DONE_MARKER "") } : StageReport)] }
          | .synthesize => s
        let s2 := { s1 with suiteStageIndex := s1.suiteStageIndex + 1 }
        if DEFAULT_SUITE_STAGES.length ≤ s2.suiteStageIndex then
          endSuite s2 "complete"
        else
          sendCurrentStagePrompt env s2

/-- src/index.ts lines 489-499: the input (interrupt) handler. -/
def onInput (hasUI : Bool) (source : String) (s : SuiteState) : HandlerResult × InputAction :=
  if hasUI = false then
    ({ state := s, statusSets := [], notices := [], sent := [] }, .cont)
  else if s.suiteActive = true ∧ source = "interactive" then
    (endSuite s "user interrupted", .cont)
  else
    ({ state := s, statusSets := [], notices := [], sent := [] }, .cont)

/-- src/index.ts lines 502-537: the `/review` command handler.  The external
collaborators are parameters: `isIdle` (`ctx.isIdle()`), `gitOk`
(`ensureGitRepo`, which notifies on failure), and `resolved` (the value of
`resolveTarget`, `none` on cancellation). -/
def reviewCommand (env : PromptEnv) (isIdle gitOk : Bool) (resolved : Option ReviewTarget)
    (s : SuiteState) : HandlerResult :=
  if isIdle = false then
    { state := s, statusSets := [], notices := ["Agent is busy; try again when idle"], sent := [] }
  else if gitOk = false then
    { state := s, statusSets := [], notices := ["/review: not inside a git repository"], sent := [] }
  else
    match resolved with
    | none => { state := s, statusSets := [], notices := [], sent := [] }
    | some target =>
      if s.suiteActive = true then
        { state := s
          statusSets := []
          notices := ["A review suite is already running. Type anything to interrupt it."]
          sent := [] }
      else
        let s1 : SuiteState :=
          { suiteActive := true
            suiteTarget := some target
            suiteStageIndex := 0
            suiteReports := []
            suiteFreshContext := true
            suiteBoundaryCount := -1
            boundaryNeedsCapture := true }
        let r := sendCurrentStagePrompt env s1
        ({ state := r.state
           statusSets := r.statusSets
           notices := "Review started" :: r.notices
           sent := r.sent } : HandlerResult)

/-- The run state created by the review command handler when a run starts
(src/index.ts lines 526-532). -/
def freshRun (t : ReviewTarget) : SuiteState :=
  { suiteActive := true
    suiteTarget := some t
    suiteStageIndex := 0
    suiteReports := []
    suiteFreshContext := true
    suiteBoundaryCount := -1
    boundaryNeedsCapture := true }

/-- The `{{SCOPE}}` placeholder substituted into review-stage templates. -/
def scopeVar : String := "\x7b\x7bSCOPE\x7d\x7d"

/-- The `{{REPORTS}}` placeholder substituted into the synthesize template. -/
def reportsVar : String := "\x7b\x7bREPORTS\x7d\x7d"

/-- The overall template body after its `{{SCOPE}}` placeholder (used to
decompose the loaded template in proofs). -/
def overallRest : String :=
  "\n\nHard rules:\n- Review only. Do NOT edit files.\n- If you spot an issue, propose a fix in prose or small patch snippets, but don\x27t apply it.\n\nFocus:\n- Correctness, edge cases, invariants\n- Error handling, observability\n- Performance/concurrency risks\n- Tests that de-risk regressions\n\nOutput a single Markdown review with sections:\n### Summary\n### Risk assessment (Low/Medium/High + why)\n### Blockers (must-fix)\n### Major issues (should-fix)\n### Minor issues (optional)\n### Tests (what\x27s missing + targeted suggestions)\n### Suggested next commands\n\nEnd your response with:\n[[PI_REVIEW_STAGE_DONE]]"

/-- The linus template body after its `{{SCOPE}}` placeholder. -/
def linusRest : String :=
  "\n\nAdopt a Linus Torvalds / kernel maintainer lens:\n- Be blunt and ruthlessly high-signal.\n- Demand simplicity and minimal diff. Reject cleverness, unnecessary abstractions, and magic.\n- Be strict about naming, invariants, APIs, and failure modes.\n- Ask \"what breaks?\" for every change.\n- Cite exact files/functions and propose concrete fixes.\n\nHard rules:\n- Review only. Do NOT edit files.\n\nOutput sections:\n### Summary\n### Risk assessment (Low/Medium/High + why)\n### Blockers (must-fix)\n### Major issues (should-fix)\n### Minor issues (optional)\n### Tests (what\x27s missing + targeted suggestions)\n### Suggested next commands\n\nEnd your response with:\n[[PI_REVIEW_STAGE_DONE]]"

/-- The staff template body after its `{{SCOPE}}` placeholder. -/
def staffRest : String :=
  "\n\nAdopt a Staff Engineer lens (FAANG-style):\n- Focus on operational risk, rollouts, backwards compatibility, and long-term maintainability.\n- Demand observability (logs/metrics/traces), clear failure modes, and safe defaults.\n- Call out concurrency/idempotency pitfalls.\n- Require tests that de-risk edge cases.\n\nHard rules:\n- Review only. Do NOT edit files.\n\nOutput sections:\n### Summary\n### Risk assessment (Low/Medium/High + why)\n### Blockers (must-fix)\n### Major issues (should-fix)\n### Minor issues (optional)\n### Tests (what\x27s missing + targeted suggestions)\n### Suggested next commands\n\nEnd your response with:\n[[PI_REVIEW_STAGE_DONE]]"

/-- A review command start followed by three completed agent turns (the
scenario of the three review stages finishing in order). -/
def runThree (env : PromptEnv) (t : ReviewTarget) (ms1 ms2 ms3 : List Message) : HandlerResult :=
  onAgentEnd env
    (onAgentEnd env
      (onAgentEnd env
        (reviewCommand env true true (some t) initialSuiteState).state ms1).state
      ms2).state ms3

/-! ## Concrete redaction scenario: the history of spec §8
`[U0, A0 (pre-suite), U1 (stage-0 prompt), A1, U2 (stage-1 prompt), A2,
U3 (stage-2 prompt)]`, driven through the actual handlers. -/

/-- Environment for the redaction scenario: every template resolves to a
fixed non-empty body (template contents are irrelevant to redaction). -/
def c1Env : PromptEnv := ⟨fun _ => some "Review the code."⟩

def c1U0 : Message := ⟨"user", [ .text "Please look at my repository." ]⟩

def c1A0 : Message := ⟨"assistant", [ .text "Sure, tell me what to review." ]⟩

def c1U1 : Message := ⟨"user", [ .text "stage 0 prompt" ]⟩

def c1A1 : Message := ⟨"assistant", [ .text "stage 0 review report" ]⟩

def c1U2 : Message := ⟨"user", [ .text "stage 1 prompt" ]⟩

def c1A2 : Message := ⟨"assistant", [ .text "stage 1 review report" ]⟩

def c1U3 : Message := ⟨"user", [ .text "stage 2 prompt" ]⟩

/-- State right after the review command starts the run (stage 0 prompt
sent). -/
def c1Run0 : SuiteState :=
  (reviewCommand c1Env true true (some .worktree) initialSuiteState).state

/-- State after stage 0 completes (stage 1 prompt sent). -/
def c1Run1 : SuiteState := (onAgentEnd c1Env c1Run0 [c1U0, c1A0, c1U1, c1A1]).state

/-- State after the filter runs for stage 1's turn (this is the invocation
that captures the boundary). -/
def c1Run1c : SuiteState := (onContext c1Run1 [c1U0, c1A0, c1U1, c1A1, c1U2]).1

/-- State after stage 1 completes (stage 2 prompt sent); the run is now at
`stageIndex == 2`. -/
def c1Run2 : SuiteState :=
  (onAgentEnd c1Env c1Run1c [c1U0, c1A0, c1U1, c1A1, c1U2, c1A2]).state

/-- Claim C8's state-machine invariant: the stage index stays within the
pipeline, and an active run is never at the terminal index. -/
def StageIdxInv (s : SuiteState) : Prop :=
  s.suiteStageIndex ≤ DEFAULT_SUITE_STAGES.length ∧
  (s.suiteActive = true → s.suiteStageIndex < DEFAULT_SUITE_STAGES.length)

/-- Claim C10's implicit invariant: while a run is active the accumulated
reports are exactly the ids and labels of the first `min(stageIndex, 3)`
pipeline stages, in pipeline order. -/
def ReportsInv (s : SuiteState) : Prop :=
  s.suiteActive = true →
    s.suiteStageIndex ≤ 3 ∧
    s.suiteReports.map (fun r => (r.stageId, r.stageLabel)) =
      (DEFAULT_SUITE_STAGES.take (min s.suiteStageIndex 3)).map (fun st => (st.id, st.label))

/-! ## Lemmas about the string primitives -/

theorem trimL_eq_nil_iff (l : List Char) : trimL l = [] ↔ ∀ c ∈ l, c.isWhitespace = true := by
  induction l with
  | nil => simp [trimL]
  | cons c rest ih =>
    by_cases hc : c.isWhitespace = true
    · simp [trimL, hc, ih]
    · simp [trimL, hc]

theorem trimL_allWS_iff (l : List Char) :
    (∀ c ∈ trimL l, c.isWhitespace = true) ↔ (∀ c ∈ l, c.isWhitespace = true) := by
  induction l with
  | nil => simp [trimL]
  | cons c rest ih =>
    by_cases hc : c.isWhitespace = true
    · simp [trimL, hc, ih]
    · simp [trimL, hc]

theorem trimChars_eq_nil_iff (l : List Char) :
    trimChars l = [] ↔ ∀ c ∈ l, c.isWhitespace = true := by
  unfold trimChars
  rw [List.reverse_eq_nil_iff, trimL_eq_nil_iff]
  constructor
  · intro h
    exact (trimL_allWS_iff l).mp (fun c hc => h c (List.mem_reverse.mpr hc))
  · intro h c hc
    exact (trimL_allWS_iff l).mpr h c (List.mem_reverse.mp hc)

theorem jsTrim_eq_empty_iff (s : String) :
    jsTrim s = "" ↔ ∀ c ∈ s.data, c.isWhitespace = true := by
  rw [jsTrim, String.ext_iff]
  have h0 : ("" : String).data = [] := rfl
  rw [h0]
  exact trimChars_eq_nil_iff s.data

theorem jsTrim_ne_empty (s : String) (c : Char) (hc : c ∈ s.data)
    (hw : c.isWhitespace = false) : jsTrim s ≠ "" := by
  rw [Ne, jsTrim_eq_empty_iff]
  intro h
  have h2 := h c hc
  rw [hw] at h2
  cases h2

theorem hasPref_mem (p s : List Char) (h : hasPref p s = true) : ∀ c ∈ p, c ∈ s := by
  induction p generalizing s with
  | nil => simp
  | cons a as ih =>
    cases s with
    | nil => simp [hasPref] at h
    | cons b bs =>
      simp only [hasPref, Bool.and_eq_true, beq_iff_eq] at h
      intro c hc
      rcases List.mem_cons.mp hc with rfl | hc
      · simp [h.1]
      · exact List.mem_cons_of_mem _ (ih bs h.2 c hc)

theorem hasPref_append_self (p r : List Char) : hasPref p (p ++ r) = true := by
  induction p with
  | nil => rfl
  | cons a as ih => simp [hasPref, ih]

theorem replaceAllGo_congr (pat repl : List Char) :
    ∀ (n : Nat) (s : List Char) (m : Nat), s.length ≤ n → s.length ≤ m →
      replaceAllGo pat repl s n = replaceAllGo pat repl s m := by
  intro n
  induction n with
  | zero =>
    intro s m hn _
    have hs : s = [] := List.eq_nil_of_length_eq_zero (Nat.le_zero.mp hn)
    subst hs
    simp [replaceAllGo]
  | succ n ih =>
    intro s m hn hm
    cases s with
    | nil => simp [replaceAllGo]
    | cons c rest =>
      cases m with
      | zero => simp at hm
      | succ m =>
        by_cases hcond : pat ≠ [] ∧ hasPref pat (c :: rest) = true
        · simp only [replaceAllGo, if_pos hcond]
          have hlen : (rest.drop (pat.length - 1)).length ≤ rest.length := by
            simp [List.length_drop]
          refine congrArg _ (ih _ m ?_ ?_)
          · simp only [List.length_cons] at hn
            omega
          · simp only [List.length_cons] at hm
            omega
        · simp only [replaceAllGo, if_neg hcond]
          refine congrArg _ (ih _ m ?_ ?_)
          · simp only [List.length_cons] at hn
            omega
          · simp only [List.length_cons] at hm
            omega

theorem replaceAllList_cons_no (pat repl : List Char) (c : Char) (rest : List Char)
    (h : hasPref pat (c :: rest) = false) :
    replaceAllList pat repl (c :: rest) = c :: replaceAllList pat repl rest := by
  rw [replaceAllList, replaceAllList, List.length_cons, replaceAllGo, if_neg]
  rintro ⟨_, hp⟩
  rw [h] at hp
  cases hp

theorem replaceAllList_cons_pos (pat repl : List Char) (c : Char) (rest : List Char)
    (hne : pat ≠ []) (hp : hasPref pat (c :: rest) = true) :
    replaceAllList pat repl (c :: rest) =
      repl ++ replaceAllList pat repl (rest.drop (pat.length - 1)) := by
  rw [replaceAllList, replaceAllList, List.length_cons, replaceAllGo, if_pos ⟨hne, hp⟩]
  refine congrArg _ (replaceAllGo_congr pat repl rest.length _ _ ?_ ?_)
  · simp [List.length_drop]
  · exact le_rfl

theorem replaceAllList_no_occ (pat repl : List Char) (s : List Char)
    (h : occursB pat s = false) : replaceAllList pat repl s = s := by
  induction s with
  | nil => rfl
  | cons c rest ih =>
    rw [occursB, Bool.or_eq_false_iff] at h
    rw [replaceAllList_cons_no _ _ _ _ h.1]
    exact congrArg _ (ih h.2)

theorem replaceAllList_cons_self (pat repl rest : List Char) (h : pat ≠ []) :
    replaceAllList pat repl (pat ++ rest) = repl ++ replaceAllList pat repl rest := by
  cases pat with
  | nil => exact absurd rfl h
  | cons p ps =>
    rw [List.cons_append, replaceAllList_cons_pos _ _ _ _ h]
    · have hd : (p :: ps).length - 1 = ps.length := by simp
      rw [hd, List.drop_left]
    · rw [← List.cons_append]
      exact hasPref_append_self _ _

theorem replaceAllList_all_ws (pat repl s : List Char)
    (hs : ∀ c ∈ s, c.isWhitespace = true) (hp : ∃ c ∈ pat, c.isWhitespace = false) :
    replaceAllList pat repl s = s := by
  induction s with
  | nil => rfl
  | cons c rest ih =>
    have hnp : hasPref pat (c :: rest) = false := by
      by_contra hcon
      rw [Bool.not_eq_false] at hcon
      rcases hp with ⟨d, hd, hdw⟩
      have h2 := hs d (hasPref_mem pat _ hcon d hd)
      rw [hdw] at h2
      cases h2
    rw [replaceAllList_cons_no _ _ _ _ hnp]
    exact congrArg _ (ih (fun d hd => hs d (List.mem_cons_of_mem _ hd)))

theorem replaceAllList_emit (pat repl : List Char) (hne : pat ≠ []) :
    ∀ s, occursB pat s = true → ∃ l r, replaceAllList pat repl s = l ++ (repl ++ r) := by
  intro s
  induction s with
  | nil =>
    intro h
    simp [occursB] at h
  | cons c rest ih =>
    intro h
    by_cases hp : hasPref pat (c :: rest) = true
    · refine ⟨[], replaceAllList pat repl (rest.drop (pat.length - 1)), ?_⟩
      rw [replaceAllList_cons_pos _ _ _ _ hne hp]
      simp
    · rw [occursB, Bool.or_eq_true_iff] at h
      rcases h with h | h
      · exact absurd h hp
      · rcases ih h with ⟨l, r, hl⟩
        refine ⟨c :: l, r, ?_⟩
        rw [replaceAllList_cons_no _ _ _ _ (by simpa using hp), hl]
        rfl

theorem containsL_appL {sub a : List Char} (b : List Char) (h : containsL sub a) :
    containsL sub (a ++ b) := by
  rcases h with ⟨l, r, rfl⟩
  exact ⟨l, r ++ b, by simp⟩

theorem containsL_appR {sub b : List Char} (a : List Char) (h : containsL sub b) :
    containsL sub (a ++ b) := by
  rcases h with ⟨l, r, rfl⟩
  exact ⟨a ++ l, r, by simp⟩

theorem containsL_intro (sub l r : List Char) : containsL sub (l ++ (sub ++ r)) :=
  ⟨l, r, by simp⟩

theorem containsL_mid {sub m : List Char} {s : List Char} (l r : List Char)
    (hs : s = l ++ (m ++ r)) (h : containsL sub m) : containsL sub s := by
  subst hs
  exact containsL_appR _ (containsL_appL _ h)

/-! ## Lemmas about the state machine -/

theorem updateSuiteStatus_resetRun (s : SuiteState) : updateSuiteStatus (resetRun s) = none := rfl

theorem resetRun_eq_initial (s : SuiteState) (hf : s.suiteFreshContext = true) :
    resetRun s = initialSuiteState := by
  cases s
  simp only [resetRun, initialSuiteState] at hf ⊢
  simp_all

theorem endSuite_eq (s : SuiteState) (r : String) :
    endSuite s r = ⟨resetRun s, [none], ["Review suite ended: " ++ r], []⟩ := by
  rw [endSuite, updateSuiteStatus_resetRun]

theorem sendPrompt_success (env : PromptEnv) (s : SuiteState) (target : ReviewTarget)
    (stage : ReviewSuiteStage) (ht : s.suiteTarget = some target)
    (hst : currentStage s = some stage)
    (hp : jsTrim (buildStagePrompt env target stage s.suiteReports) ≠ "") :
    sendCurrentStagePrompt env s =
      ⟨s, [updateSuiteStatus s], [], [buildStagePrompt env target stage s.suiteReports]⟩ := by
  rw [sendCurrentStagePrompt, ht, hst]
  simp only [if_neg hp]

theorem sendPrompt_cases (env : PromptEnv) (s : SuiteState) :
    (sendCurrentStagePrompt env s).state = s ∨
      ∃ r, sendCurrentStagePrompt env s = endSuite s r := by
  cases ht : s.suiteTarget with
  | none =>
    simp only [sendCurrentStagePrompt, ht]
    exact Or.inr ⟨_, rfl⟩
  | some target =>
    cases hst : currentStage s with
    | none =>
      simp only [sendCurrentStagePrompt, ht, hst]
      exact Or.inr ⟨_, rfl⟩
    | some stage =>
      by_cases hp : jsTrim (buildStagePrompt env target stage s.suiteReports) = ""
      · simp only [sendCurrentStagePrompt, ht, hst]
        rw [if_pos hp]
        exact Or.inr ⟨_, rfl⟩
      · simp only [sendCurrentStagePrompt, ht, hst]
        rw [if_neg hp]
        exact Or.inl rfl

theorem getLastAssistantText_no_assistant (ms : List Message)
    (h : ∀ m ∈ ms, m.role ≠ "assistant") : getLastAssistantText ms = "" := by
  rw [getLastAssistantText]
  have hf : ms.filter (fun m => m.role == "assistant") = [] := by
    rw [List.filter_eq_nil_iff]
    intro m hm
    simpa using h m hm
  rw [hf]
  rfl

theorem agentEnd_review_step (env : PromptEnv) (s : SuiteState) (ms : List Message)
    (stage : ReviewSuiteStage) (ha : s.suiteActive = true)
    (hst : currentStage s = some stage) (hk : stage.kind = .review)
    (htxt : getLastAssistantText ms ≠ "") :
    onAgentEnd env s ms = sendCurrentStagePrompt env
      { s with
        suiteReports := s.suiteReports ++
          [⟨stage.id, stage.label,
            jsTrim (jsReplaceAll (getLastAssistantText ms) STAGE_DONE_MARKER "")⟩]
        suiteStageIndex := s.suiteStageIndex + 1 } := by
  have h4 : s.suiteStageIndex < 4 := by
    by_contra hcon
    push_neg at hcon
    rw [currentStage, List.getElem?_eq_none (by simpa [DEFAULT_SUITE_STAGES] using hcon)] at hst
    cases hst
  have hlt : s.suiteStageIndex < 3 := by
    rcases (by omega :
        s.suiteStageIndex = 0 ∨ s.suiteStageIndex = 1 ∨
        s.suiteStageIndex = 2 ∨ s.suiteStageIndex = 3) with h | h | h | h
    · omega
    · omega
    · omega
    · rw [currentStage, h] at hst
      simp only [DEFAULT_SUITE_STAGES] at hst
      rw [List.getElem?_cons_succ, List.getElem?_cons_succ, List.getElem?_cons_succ,
        List.getElem?_cons_zero, Option.some_inj] at hst
      rw [← hst] at hk
      cases hk
  rw [onAgentEnd, ha, hst]
  simp only [Bool.true_eq_false, if_false, if_neg htxt, hk]
  rw [if_neg]
  simp only [DEFAULT_SUITE_STAGES, List.length_cons, List.length_nil]
  omega

theorem onContext_inactive (s : SuiteState) (ms : List Message)
    (ha : s.suiteActive = false) : onContext s ms = (s, none) := by
  rw [onContext, if_pos (Or.inl ha)]

theorem onContext_fst (s : SuiteState) (ms : List Message) :
    (onContext s ms).1 = s ∨
    (onContext s ms).1 = { s with
      suiteBoundaryCount :=
        (match lastUserIdx ms with
        | some i => (i : Int)
        | none => s.suiteBoundaryCount)
      boundaryNeedsCapture := false } := by
  rw [onContext]
  by_cases h : s.suiteActive = false ∨ s.suiteFreshContext = false
  · rw [if_pos h]
    exact Or.inl rfl
  · rw [if_neg h]
    cases hst : currentStage s with
    | none => exact Or.inl rfl
    | some stage =>
      simp only []
      by_cases hk : stage.kind ≠ StageKind.review
      · rw [if_pos hk]
        exact Or.inl rfl
      · rw [if_neg hk]
        by_cases h0 : s.suiteStageIndex = 0
        · rw [if_pos h0]
          exact Or.inl rfl
        · rw [if_neg h0]
          by_cases hemp : ms.isEmpty = true
          · rw [if_pos hemp]
            exact Or.inl rfl
          · rw [if_neg hemp]
            by_cases hcap : s.boundaryNeedsCapture = true
            · rw [if_pos hcap]
              right
              split
              · rfl
              · split
                · rfl
                · split
                  · rfl
                  · rfl
            · rw [if_neg hcap]
              left
              split
              · rfl
              · split
                · rfl
                · split
                  · rfl
                  · rfl

theorem currentStage_lt_four (s : SuiteState) (stage : ReviewSuiteStage)
    (hst : currentStage s = some stage) : s.suiteStageIndex < 4 := by
  by_contra hcon
  push_neg at hcon
  rw [currentStage, List.getElem?_eq_none (by simpa [DEFAULT_SUITE_STAGES] using hcon)] at hst
  cases hst

theorem currentStage_review_lt (s : SuiteState) (stage : ReviewSuiteStage)
    (hst : currentStage s = some stage) (hk : stage.kind = .review) :
    s.suiteStageIndex < 3 := by
  have h4 := currentStage_lt_four s stage hst
  rcases (by omega :
      s.suiteStageIndex = 0 ∨ s.suiteStageIndex = 1 ∨
      s.suiteStageIndex = 2 ∨ s.suiteStageIndex = 3) with h | h | h | h
  · omega
  · omega
  · omega
  · rw [currentStage, h] at hst
    simp only [DEFAULT_SUITE_STAGES] at hst
    rw [List.getElem?_cons_succ, List.getElem?_cons_succ, List.getElem?_cons_succ,
      List.getElem?_cons_zero, Option.some_inj] at hst
    rw [← hst] at hk
    cases hk

theorem currentStage_synth_eq (s : SuiteState) (stage : ReviewSuiteStage)
    (hst : currentStage s = some stage) (hk : stage.kind = .synthesize) :
    s.suiteStageIndex = 3 := by
  have h4 := currentStage_lt_four s stage hst
  rcases (by omega :
      s.suiteStageIndex = 0 ∨ s.suiteStageIndex = 1 ∨
      s.suiteStageIndex = 2 ∨ s.suiteStageIndex = 3) with h | h | h | h
  all_goals
    rw [currentStage, h] at hst
    simp only [DEFAULT_SUITE_STAGES] at hst
  · rw [List.getElem?_cons_zero, Option.some_inj] at hst
    rw [← hst] at hk
    cases hk
  · rw [List.getElem?_cons_succ, List.getElem?_cons_zero, Option.some_inj] at hst
    rw [← hst] at hk
    cases hk
  · rw [List.getElem?_cons_succ, List.getElem?_cons_succ, List.getElem?_cons_zero,
      Option.some_inj] at hst
    rw [← hst] at hk
    cases hk
  · exact h

theorem onAgentEnd_cases (env : PromptEnv) (s : SuiteState) (ms : List Message) :
    onAgentEnd env s ms = ⟨s, [], [], []⟩ ∨
    (∃ reason, onAgentEnd env s ms = endSuite s reason) ∨
    (∃ stage, currentStage s = some stage ∧ s.suiteActive = true ∧
      ∃ s2 : SuiteState,
        s2.suiteActive = true ∧
        s2.suiteTarget = s.suiteTarget ∧
        s2.suiteStageIndex = s.suiteStageIndex + 1 ∧
        s2.suiteFreshContext = s.suiteFreshContext ∧
        s2.suiteBoundaryCount = s.suiteBoundaryCount ∧
        s2.boundaryNeedsCapture = s.boundaryNeedsCapture ∧
        ((stage.kind = .review ∧ ∃ txt, s2.suiteReports = s.suiteReports ++
            [⟨stage.id, stage.label, txt⟩]) ∨
          (stage.kind = .synthesize ∧ s2.suiteReports = s.suiteReports)) ∧
        ((DEFAULT_SUITE_STAGES.length ≤ s2.suiteStageIndex ∧
            onAgentEnd env s ms = endSuite s2 "complete") ∨
          (s2.suiteStageIndex < DEFAULT_SUITE_STAGES.length ∧
            onAgentEnd env s ms = sendCurrentStagePrompt env s2))) := by
  by_cases ha : s.suiteActive = false
  · rw [onAgentEnd, if_pos ha]
    exact Or.inl rfl
  · have hact : s.suiteActive = true := by
      revert ha
      cases s.suiteActive <;> simp
    rw [onAgentEnd, if_neg ha]
    cases hst : currentStage s with
    | none => exact Or.inr (Or.inl ⟨_, rfl⟩)
    | some stage =>
      simp only []
      by_cases htxt : getLastAssistantText ms = ""
      · rw [if_pos htxt]
        exact Or.inr (Or.inl ⟨_, rfl⟩)
      · rw [if_neg htxt]
        right
        right
        refine ⟨stage, rfl, hact, ?_⟩
        cases hk : stage.kind with
        | review =>
          simp only [hk]
          refine ⟨{ s with
            suiteReports := s.suiteReports ++
              [⟨stage.id, stage.label,
                jsTrim (jsReplaceAll (getLastAssistantText ms) STAGE_DONE_MARKER "")⟩]
            suiteStageIndex := s.suiteStageIndex + 1 },
            hact, rfl, rfl, rfl, rfl, rfl, Or.inl ⟨trivial, _, rfl⟩, ?_⟩
          by_cases hge : DEFAULT_SUITE_STAGES.length ≤ s.suiteStageIndex + 1
          · rw [if_pos hge]
            exact Or.inl ⟨hge, rfl⟩
          · rw [if_neg hge]
            refine Or.inr ⟨by simp [DEFAULT_SUITE_STAGES] at hge ⊢; omega, rfl⟩
        | synthesize =>
          simp only [hk]
          refine ⟨{ s with suiteStageIndex := s.suiteStageIndex + 1 },
            hact, rfl, rfl, rfl, rfl, rfl, Or.inr ⟨trivial, rfl⟩, ?_⟩
          by_cases hge : DEFAULT_SUITE_STAGES.length ≤ s.suiteStageIndex + 1
          · rw [if_pos hge]
            exact Or.inl ⟨hge, rfl⟩
          · rw [if_neg hge]
            refine Or.inr ⟨by simp [DEFAULT_SUITE_STAGES] at hge ⊢; omega, rfl⟩

/-! ## Loaded template facts -/

theorem loadPrompt_overall : loadPromptText defaultEnv "review-overall" = scopeVar ++ overallRest := by
  decide

theorem loadPrompt_linus : loadPromptText defaultEnv "review-linus" = scopeVar ++ linusRest := by
  decide

theorem loadPrompt_staff : loadPromptText defaultEnv "review-staff" = scopeVar ++ staffRest := by
  decide

theorem synth_has_reports_var :
    occursB reportsVar.data (loadPromptText defaultEnv "review-synthesize").data = true := by
  decide

theorem renderScope_ne (rest v : String)
    (hno : occursB scopeVar.data rest.data = false)
    (hc : ∃ c ∈ rest.data, c.isWhitespace = false) :
    jsTrim (renderVars (scopeVar ++ rest) [("SCOPE", v)]) ≠ "" := by
  simp only [renderVars, List.foldl]
  have hpat : ("\x7b\x7b" ++ "SCOPE" ++ "\x7d\x7d" : String) = scopeVar := rfl
  rw [hpat, jsReplaceAll, String.data_append,
    replaceAllList_cons_self _ _ _ (by decide), replaceAllList_no_occ _ _ _ hno]
  rcases hc with ⟨c, hcm, hcw⟩
  exact jsTrim_ne_empty _ c (List.mem_append_right _ hcm) hcw

theorem renderReports_contains (tmpl v : String)
    (hocc : occursB reportsVar.data tmpl.data = true) :
    ∃ l r, (renderVars tmpl [("REPORTS", v)]).data = l ++ (v.data ++ r) := by
  simp only [renderVars, List.foldl]
  have hpat : ("\x7b\x7b" ++ "REPORTS" ++ "\x7d\x7d" : String) = reportsVar := rfl
  rw [hpat]
  exact replaceAllList_emit _ _ (by decide) _ hocc

/-! ## Claims -/

/-- C1: The spec claims that at `stageIndex == 2`, with history
`[U0, A0, U1, A1, U2, A2, U3]`, the filtered view is `[U0, A0, notice, U3]`.
The code disagrees: the filter returns at `stageIndex === 0` before the
boundary-capture block runs, so the boundary is captured only on stage 1's
first filter invocation and records the position of the stage-1 prompt `U2`
(index 4), not the stage-0 prompt `U1`.  The actual filtered view at stage 2
therefore still contains the stage-0 prompt and the stage-0 answer:
`[U0, A0, U1, A1, notice, U3]`. -/
theorem c1_redaction_keeps_stage0_output :
    c1Run0.suiteStageIndex = 0 ∧ c1Run0.boundaryNeedsCapture = true ∧
    (onContext c1Run0 [c1U0, c1A0, c1U1]).1 = c1Run0 ∧
    (onContext c1Run0 [c1U0, c1A0, c1U1]).2 = none ∧
    c1Run1c.suiteBoundaryCount = 4 ∧ c1Run1c.boundaryNeedsCapture = false ∧
    c1Run2.suiteStageIndex = 2 ∧
    (onContext c1Run2 [c1U0, c1A0, c1U1, c1A1, c1U2, c1A2, c1U3]).2 =
      some [c1U0, c1A0, c1U1, c1A1, noticeMessage "Staff", c1U3] ∧
    (onContext c1Run2 [c1U0, c1A0, c1U1, c1A1, c1U2, c1A2, c1U3]).2 ≠
      some [c1U0, c1A0, noticeMessage "Staff", c1U3] := by
  decide

/-- C3: while a run is active at any pipeline stage, a completed turn whose
extractable assistant text is empty (in particular when no assistant-authored
message exists at all) terminates the run through `endSuite`: `active` becomes
false, no report is stored, and the surfaced reason is the aborted-no-output
notice. -/
theorem c3_empty_output_aborts (env : PromptEnv) (s : SuiteState) (ms : List Message)
    (ha : s.suiteActive = true) (hidx : s.suiteStageIndex < DEFAULT_SUITE_STAGES.length)
    (hms : getLastAssistantText ms = "" ∨ ∀ m ∈ ms, m.role ≠ "assistant") :
    onAgentEnd env s ms = endSuite s "aborted (no assistant output) " ∧
    (onAgentEnd env s ms).state.suiteActive = false ∧
    (onAgentEnd env s ms).state.suiteReports = [] ∧
    (onAgentEnd env s ms).notices = ["Review suite ended: aborted (no assistant output) "] := by
  have htxt : getLastAssistantText ms = "" := by
    rcases hms with h | h
    · exact h
    · exact getLastAssistantText_no_assistant ms h
  have hstage : currentStage s = some (DEFAULT_SUITE_STAGES.get ⟨s.suiteStageIndex, hidx⟩) :=
    List.getElem?_eq_getElem hidx
  have he : onAgentEnd env s ms = endSuite s "aborted (no assistant output) " := by
    rw [onAgentEnd, ha]
    simp only [hstage]
    rw [if_neg (by decide : ¬(true = false)), if_pos htxt]
  refine ⟨he, ?_, ?_, ?_⟩ <;> rw [he, endSuite_eq]
  · rfl
  · rfl
  · rfl

/-- C3 witness: a run active at stage 1 with an event carrying no
assistant-authored message is aborted with the no-output reason. -/
theorem c3_witness :
    (freshRun .staged).suiteActive = true ∧
    (freshRun .staged).suiteStageIndex < DEFAULT_SUITE_STAGES.length ∧
    (onAgentEnd defaultEnv (freshRun .staged) [⟨"user", [ .text "hello" ]⟩] =
      endSuite (freshRun .staged) "aborted (no assistant output) " ∧
    (onAgentEnd defaultEnv (freshRun .staged) [⟨"user", [ .text "hello" ]⟩]).state.suiteActive = false ∧
    (onAgentEnd defaultEnv (freshRun .staged) [⟨"user", [ .text "hello" ]⟩]).state.suiteReports = [] ∧
    (onAgentEnd defaultEnv (freshRun .staged) [⟨"user", [ .text "hello" ]⟩]).notices =
      ["Review suite ended: aborted (no assistant output) "]) :=
  ⟨rfl, by decide,
    c3_empty_output_aborts defaultEnv (freshRun .staged) [⟨"user", [ .text "hello" ]⟩]
      rfl (by decide) (Or.inr (by decide))⟩

/-- C4: on an interactive input event (which implies a UI is present), the
run is terminated with reason "user interrupted" exactly when a run is
active; with no active run the handler changes nothing and emits nothing;
in both cases the action is `continue`. -/
theorem c4_interrupt_iff_active (s : SuiteState) :
    (s.suiteActive = true →
      onInput true "interactive" s = (endSuite s "user interrupted", InputAction.cont)) ∧
    (s.suiteActive = false →
      onInput true "interactive" s =
        ({ state := s, statusSets := [], notices := [], sent := [] }, InputAction.cont)) := by
  constructor
  · intro ha
    rw [onInput, if_neg (by decide : ¬(true = false)), if_pos ⟨ha, rfl⟩]
  · intro ha
    rw [onInput, if_neg (by decide : ¬(true = false)), if_neg]
    rintro ⟨h1, _⟩
    rw [ha] at h1
    cases h1

/-- C4 witness: with an active run the interactive input tears the run down;
with no active run the handler is a no-op; the input continues in both
cases. -/
theorem c4_witness :
    ((freshRun .worktree).suiteActive = true ∧
      onInput true "interactive" (freshRun .worktree) =
        (endSuite (freshRun .worktree) "user interrupted", InputAction.cont)) ∧
    (initialSuiteState.suiteActive = false ∧
      onInput true "interactive" initialSuiteState =
        ({ state := initialSuiteState, statusSets := [], notices := [], sent := [] },
          InputAction.cont)) :=
  ⟨⟨rfl, (c4_interrupt_iff_active (freshRun .worktree)).1 rfl⟩,
    ⟨rfl, (c4_interrupt_iff_active initialSuiteState).2 rfl⟩⟩

/-- C5: whenever the current stage's template resolves to empty text after
trimming, emitting that stage's prompt terminates the run through the
teardown path with the missing-template reason and sends no prompt. -/
theorem c5_missing_template (env : PromptEnv) (s : SuiteState) (stage : ReviewSuiteStage)
    (ht : s.suiteTarget.isSome = true) (hst : currentStage s = some stage)
    (hempty : jsTrim (loadPromptText env stage.promptName) = "") :
    sendCurrentStagePrompt env s =
      endSuite s ("missing prompt template: " ++ stage.promptName) ∧
    (sendCurrentStagePrompt env s).sent = [] ∧
    (sendCurrentStagePrompt env s).state.suiteActive = false ∧
    (sendCurrentStagePrompt env s).notices =
      ["Review suite ended: missing prompt template: " ++ stage.promptName] := by
  rcases Option.isSome_iff_exists.mp ht with ⟨target, htgt⟩
  have hws : ∀ c ∈ (loadPromptText env stage.promptName).data, c.isWhitespace = true :=
    (jsTrim_eq_empty_iff _).mp hempty
  have key : ∀ k v : String,
      (∃ c ∈ ("\x7b\x7b" ++ k ++ "\x7d\x7d" : String).data, c.isWhitespace = false) →
      jsTrim (renderVars (loadPromptText env stage.promptName) [(k, v)]) = "" := by
    intro k v hk
    simp only [renderVars, List.foldl, jsReplaceAll]
    rw [replaceAllList_all_ws _ _ _ hws hk]
    exact hempty
  have hcond : jsTrim (buildStagePrompt env target stage s.suiteReports) = "" := by
    cases hkind : stage.kind
    · simp only [buildStagePrompt, hkind]
      exact key "SCOPE" _ (by decide)
    · simp only [buildStagePrompt, hkind]
      exact key "REPORTS" _ (by decide)
  have he : sendCurrentStagePrompt env s =
      endSuite s ("missing prompt template: " ++ stage.promptName) := by
    simp only [sendCurrentStagePrompt, htgt, hst]
    rw [if_pos hcond]
  refine ⟨he, ?_, ?_, ?_⟩ <;> rw [he, endSuite_eq] <;> rfl

/-- C5 witness: an environment whose override for every template is
whitespace-only triggers the missing-template teardown at stage 0 and sends
nothing. -/
theorem c5_witness :
    (freshRun .worktree).suiteTarget.isSome = true ∧
    currentStage (freshRun .worktree) =
      some ⟨.review, "overall", "review-overall", "Overall"⟩ ∧
    jsTrim (loadPromptText ⟨fun _ => some "   "⟩ "review-overall") = "" ∧
    (sendCurrentStagePrompt ⟨fun _ => some "   "⟩ (freshRun .worktree) =
      endSuite (freshRun .worktree) ("missing prompt template: " ++ "review-overall") ∧
    (sendCurrentStagePrompt ⟨fun _ => some "   "⟩ (freshRun .worktree)).sent = [] ∧
    (sendCurrentStagePrompt ⟨fun _ => some "   "⟩ (freshRun .worktree)).state.suiteActive = false ∧
    (sendCurrentStagePrompt ⟨fun _ => some "   "⟩ (freshRun .worktree)).notices =
      ["Review suite ended: missing prompt template: " ++ "review-overall"]) :=
  ⟨rfl, rfl, by decide,
    c5_missing_template ⟨fun _ => some "   "⟩ (freshRun .worktree)
      ⟨.review, "overall", "review-overall", "Overall"⟩ rfl rfl (by decide)⟩

/-- C6: starting a run while one is active is rejected as a no-op error in
every branch of the command handler: the stored run state (stage index,
reports and all other fields) is returned unchanged, no prompt is sent, and
no status update is published. -/
theorem c6_start_while_active (env : PromptEnv) (isIdle gitOk : Bool)
    (resolved : Option ReviewTarget) (s : SuiteState) (ha : s.suiteActive = true) :
    (reviewCommand env isIdle gitOk resolved s).state = s ∧
    (reviewCommand env isIdle gitOk resolved s).sent = [] ∧
    (reviewCommand env isIdle gitOk resolved s).statusSets = [] := by
  by_cases hi : isIdle = false
  · simp [reviewCommand, hi]
  · by_cases hg : gitOk = false
    · simp [reviewCommand, hi, hg]
    · cases resolved with
      | none => simp [reviewCommand, hi, hg]
      | some t => simp [reviewCommand, hi, hg, ha]

/-- C6 witness: a second start during an active run at stage 2 leaves the
state untouched and sends nothing. -/
theorem c6_witness :
    ({ freshRun .worktree with suiteStageIndex := 2 } : SuiteState).suiteActive = true ∧
    ((reviewCommand defaultEnv true true (some .staged)
        { freshRun .worktree with suiteStageIndex := 2 }).state =
      { freshRun .worktree with suiteStageIndex := 2 } ∧
    (reviewCommand defaultEnv true true (some .staged)
        { freshRun .worktree with suiteStageIndex := 2 }).sent = [] ∧
    (reviewCommand defaultEnv true true (some .staged)
        { freshRun .worktree with suiteStageIndex := 2 }).statusSets = []) :=
  ⟨rfl, c6_start_while_active defaultEnv true true (some .staged)
    { freshRun .worktree with suiteStageIndex := 2 } rfl⟩

/-- C9: when a review-kind stage completes with non-empty assistant text, the
handler stores exactly the report whose text is the assistant text with every
occurrence of the stage-done marker removed (mid-text occurrences included)
and the result trimmed, tagged with the stage's id and label, then advances
and emits the next prompt; the marker's absence takes the same path. -/
theorem c9_marker_stripped_report (env : PromptEnv) (s : SuiteState) (ms : List Message)
    (stage : ReviewSuiteStage) (ha : s.suiteActive = true)
    (hst : currentStage s = some stage) (hk : stage.kind = .review)
    (htxt : getLastAssistantText ms ≠ "") :
    onAgentEnd env s ms = sendCurrentStagePrompt env
      { s with
        suiteReports := s.suiteReports ++
          [⟨stage.id, stage.label,
            jsTrim (jsReplaceAll (getLastAssistantText ms) STAGE_DONE_MARKER "")⟩]
        suiteStageIndex := s.suiteStageIndex + 1 } :=
  agentEnd_review_step env s ms stage ha hst hk htxt

/-- C9 witness: a stage-1 completion whose text carries the marker twice,
once mid-text, stores the text with both occurrences removed and trimmed. -/
theorem c9_witness :
    ({ freshRun .worktree with suiteStageIndex := 1 } : SuiteState).suiteActive = true ∧
    currentStage { freshRun .worktree with suiteStageIndex := 1 } =
      some ⟨.review, "linus", "review-linus", "Linus"⟩ ∧
    getLastAssistantText
      [⟨"assistant", [ .text "Fine. [[PI_REVIEW_STAGE_DONE]] Ship it. [[PI_REVIEW_STAGE_DONE]]" ]⟩] ≠ "" ∧
    onAgentEnd defaultEnv { freshRun .worktree with suiteStageIndex := 1 }
        [⟨"assistant", [ .text "Fine. [[PI_REVIEW_STAGE_DONE]] Ship it. [[PI_REVIEW_STAGE_DONE]]" ]⟩] =
      sendCurrentStagePrompt defaultEnv
        { freshRun .worktree with
          suiteStageIndex := 2
          suiteReports := [⟨"linus", "Linus",
            jsTrim (jsReplaceAll
              (getLastAssistantText
                [⟨"assistant", [ .text "Fine. [[PI_REVIEW_STAGE_DONE]] Ship it. [[PI_REVIEW_STAGE_DONE]]" ]⟩])
              STAGE_DONE_MARKER "")⟩] } ∧
    jsTrim (jsReplaceAll
      (getLastAssistantText
        [⟨"assistant", [ .text "Fine. [[PI_REVIEW_STAGE_DONE]] Ship it. [[PI_REVIEW_STAGE_DONE]]" ]⟩])
      STAGE_DONE_MARKER "") = "Fine.  Ship it." :=
  ⟨rfl, rfl, by decide,
    c9_marker_stripped_report defaultEnv { freshRun .worktree with suiteStageIndex := 1 }
      [⟨"assistant", [ .text "Fine. [[PI_REVIEW_STAGE_DONE]] Ship it. [[PI_REVIEW_STAGE_DONE]]" ]⟩]
      ⟨.review, "linus", "review-linus", "Linus"⟩ rfl rfl rfl (by decide),
    by decide⟩

theorem containsStr_appL (a b : String) (sub : String) (h : containsStr sub a) :
    containsStr sub (a ++ b) := by
  rw [containsStr, String.data_append]
  exact containsL_appL _ h

theorem containsStr_appR (a b : String) (sub : String) (h : containsStr sub b) :
    containsStr sub (a ++ b) := by
  rw [containsStr, String.data_append]
  exact containsL_appR _ h

theorem containsStr_section (i lbl txt : String) :
    containsStr lbl (reportSection ⟨i, lbl, txt⟩) := by
  rw [reportSection]
  refine containsStr_appL _ _ _ (containsStr_appL _ _ _ (containsStr_appL _ _ _
    (containsStr_appL _ _ _ ?_)))
  rw [containsStr, String.data_append]
  exact ⟨("## " : String).data, [], by simp⟩

/-- C2: starting a fresh run with the stock templates and completing three
turns with non-empty assistant text leaves exactly 3 reports (labelled
Overall, Linus, Staff in pipeline order) and `stageIndex = 3`, and the 4th
compiled prompt — the synthesize prompt sent by the third completion —
contains all three prior report labels. -/
theorem c2_three_turns_then_synthesis (t : ReviewTarget) (ms1 ms2 ms3 : List Message)
    (h1 : getLastAssistantText ms1 ≠ "") (h2 : getLastAssistantText ms2 ≠ "")
    (h3 : getLastAssistantText ms3 ≠ "") :
    (runThree defaultEnv t ms1 ms2 ms3).state.suiteReports.length = 3 ∧
    (runThree defaultEnv t ms1 ms2 ms3).state.suiteStageIndex = 3 ∧
    (runThree defaultEnv t ms1 ms2 ms3).state.suiteReports.map (fun r => r.stageLabel) =
      ["Overall", "Linus", "Staff"] ∧
    ∃ p, (runThree defaultEnv t ms1 ms2 ms3).sent = [p] ∧
      containsStr "Overall" p ∧ containsStr "Linus" p ∧ containsStr "Staff" p := by
  have hne_overall : jsTrim (buildStagePrompt defaultEnv t
      ⟨.review, "overall", "review-overall", "Overall"⟩ ([] : List StageReport)) ≠ "" := by
    simp only [buildStagePrompt]
    rw [loadPrompt_overall]
    exact renderScope_ne overallRest _ (by decide) (by decide)
  have hneL : ∀ rs : List StageReport, jsTrim (buildStagePrompt defaultEnv t
      ⟨.review, "linus", "review-linus", "Linus"⟩ rs) ≠ "" := by
    intro rs
    simp only [buildStagePrompt]
    rw [loadPrompt_linus]
    exact renderScope_ne linusRest _ (by decide) (by decide)
  have hneS : ∀ rs : List StageReport, jsTrim (buildStagePrompt defaultEnv t
      ⟨.review, "staff", "review-staff", "Staff"⟩ rs) ≠ "" := by
    intro rs
    simp only [buildStagePrompt]
    rw [loadPrompt_staff]
    exact renderScope_ne staffRest _ (by decide) (by decide)
  have e0 : (reviewCommand defaultEnv true true (some t) initialSuiteState).state = freshRun t := by
    have hrc : reviewCommand defaultEnv true true (some t) initialSuiteState =
        ⟨(sendCurrentStagePrompt defaultEnv (freshRun t)).state,
          (sendCurrentStagePrompt defaultEnv (freshRun t)).statusSets,
          "Review started" :: (sendCurrentStagePrompt defaultEnv (freshRun t)).notices,
          (sendCurrentStagePrompt defaultEnv (freshRun t)).sent⟩ := rfl
    rw [hrc, sendPrompt_success defaultEnv (freshRun t) t
      ⟨.review, "overall", "review-overall", "Overall"⟩ rfl rfl hne_overall]
  have e1 : onAgentEnd defaultEnv (freshRun t) ms1 =
      sendCurrentStagePrompt defaultEnv ({ suiteActive := true, suiteTarget := some t, suiteStageIndex := 1, suiteReports := [⟨"overall", "Overall", jsTrim (jsReplaceAll (getLastAssistantText ms1) STAGE_DONE_MARKER "")⟩], suiteFreshContext := true, suiteBoundaryCount := -1, boundaryNeedsCapture := true } : SuiteState) :=
    agentEnd_review_step defaultEnv (freshRun t) ms1
      ⟨.review, "overall", "review-overall", "Overall"⟩ rfl rfl rfl h1
  have e1s : (onAgentEnd defaultEnv (freshRun t) ms1).state = ({ suiteActive := true, suiteTarget := some t, suiteStageIndex := 1, suiteReports := [⟨"overall", "Overall", jsTrim (jsReplaceAll (getLastAssistantText ms1) STAGE_DONE_MARKER "")⟩], suiteFreshContext := true, suiteBoundaryCount := -1, boundaryNeedsCapture := true } : SuiteState) := by
    rw [e1, sendPrompt_success defaultEnv ({ suiteActive := true, suiteTarget := some t, suiteStageIndex := 1, suiteReports := [⟨"overall", "Overall", jsTrim (jsReplaceAll (getLastAssistantText ms1) STAGE_DONE_MARKER "")⟩], suiteFreshContext := true, suiteBoundaryCount := -1, boundaryNeedsCapture := true } : SuiteState) t
      ⟨.review, "linus", "review-linus", "Linus"⟩ rfl rfl (hneL _)]
  have e2 : onAgentEnd defaultEnv ({ suiteActive := true, suiteTarget := some t, suiteStageIndex := 1, suiteReports := [⟨"overall", "Overall", jsTrim (jsReplaceAll (getLastAssistantText ms1) STAGE_DONE_MARKER "")⟩], suiteFreshContext := true, suiteBoundaryCount := -1, boundaryNeedsCapture := true } : SuiteState) ms2 =
      sendCurrentStagePrompt defaultEnv ({ suiteActive := true, suiteTarget := some t, suiteStageIndex := 2, suiteReports := [⟨"overall", "Overall", jsTrim (jsReplaceAll (getLastAssistantText ms1) STAGE_DONE_MARKER "")⟩, ⟨"linus", "Linus", jsTrim (jsReplaceAll (getLastAssistantText ms2) STAGE_DONE_MARKER "")⟩], suiteFreshContext := true, suiteBoundaryCount := -1, boundaryNeedsCapture := true } : SuiteState) :=
    agentEnd_review_step defaultEnv ({ suiteActive := true, suiteTarget := some t, suiteStageIndex := 1, suiteReports := [⟨"overall", "Overall", jsTrim (jsReplaceAll (getLastAssistantText ms1) STAGE_DONE_MARKER "")⟩], suiteFreshContext := true, suiteBoundaryCount := -1, boundaryNeedsCapture := true } : SuiteState) ms2
      ⟨.review, "linus", "review-linus", "Linus"⟩ rfl rfl rfl h2
  have e2s : (onAgentEnd defaultEnv ({ suiteActive := true, suiteTarget := some t, suiteStageIndex := 1, suiteReports := [⟨"overall", "Overall", jsTrim (jsReplaceAll (getLastAssistantText ms1) STAGE_DONE_MARKER "")⟩], suiteFreshContext := true, suiteBoundaryCount := -1, boundaryNeedsCapture := true } : SuiteState) ms2).state = ({ suiteActive := true, suiteTarget := some t, suiteStageIndex := 2, suiteReports := [⟨"overall", "Overall", jsTrim (jsReplaceAll (getLastAssistantText ms1) STAGE_DONE_MARKER "")⟩, ⟨"linus", "Linus", jsTrim (jsReplaceAll (getLastAssistantText ms2) STAGE_DONE_MARKER "")⟩], suiteFreshContext := true, suiteBoundaryCount := -1, boundaryNeedsCapture := true } : SuiteState) := by
    rw [e2, sendPrompt_success defaultEnv ({ suiteActive := true, suiteTarget := some t, suiteStageIndex := 2, suiteReports := [⟨"overall", "Overall", jsTrim (jsReplaceAll (getLastAssistantText ms1) STAGE_DONE_MARKER "")⟩, ⟨"linus", "Linus", jsTrim (jsReplaceAll (getLastAssistantText ms2) STAGE_DONE_MARKER "")⟩], suiteFreshContext := true, suiteBoundaryCount := -1, boundaryNeedsCapture := true } : SuiteState) t
      ⟨.review, "staff", "review-staff", "Staff"⟩ rfl rfl (hneS _)]
  have e3 : onAgentEnd defaultEnv ({ suiteActive := true, suiteTarget := some t, suiteStageIndex := 2, suiteReports := [⟨"overall", "Overall", jsTrim (jsReplaceAll (getLastAssistantText ms1) STAGE_DONE_MARKER "")⟩, ⟨"linus", "Linus", jsTrim (jsReplaceAll (getLastAssistantText ms2) STAGE_DONE_MARKER "")⟩], suiteFreshContext := true, suiteBoundaryCount := -1, boundaryNeedsCapture := true } : SuiteState) ms3 =
      sendCurrentStagePrompt defaultEnv ({ suiteActive := true, suiteTarget := some t, suiteStageIndex := 3, suiteReports := [⟨"overall", "Overall", jsTrim (jsReplaceAll (getLastAssistantText ms1) STAGE_DONE_MARKER "")⟩, ⟨"linus", "Linus", jsTrim (jsReplaceAll (getLastAssistantText ms2) STAGE_DONE_MARKER "")⟩, ⟨"staff", "Staff", jsTrim (jsReplaceAll (getLastAssistantText ms3) STAGE_DONE_MARKER "")⟩], suiteFreshContext := true, suiteBoundaryCount := -1, boundaryNeedsCapture := true } : SuiteState) :=
    agentEnd_review_step defaultEnv ({ suiteActive := true, suiteTarget := some t, suiteStageIndex := 2, suiteReports := [⟨"overall", "Overall", jsTrim (jsReplaceAll (getLastAssistantText ms1) STAGE_DONE_MARKER "")⟩, ⟨"linus", "Linus", jsTrim (jsReplaceAll (getLastAssistantText ms2) STAGE_DONE_MARKER "")⟩], suiteFreshContext := true, suiteBoundaryCount := -1, boundaryNeedsCapture := true } : SuiteState) ms3
      ⟨.review, "staff", "review-staff", "Staff"⟩ rfl rfl rfl h3
  rcases renderReports_contains (loadPromptText defaultEnv "review-synthesize")
      (joinSep "\n" (([⟨"overall", "Overall", jsTrim (jsReplaceAll (getLastAssistantText ms1) STAGE_DONE_MARKER "")⟩,
        ⟨"linus", "Linus", jsTrim (jsReplaceAll (getLastAssistantText ms2) STAGE_DONE_MARKER "")⟩,
        ⟨"staff", "Staff", jsTrim (jsReplaceAll (getLastAssistantText ms3) STAGE_DONE_MARKER "")⟩] : List StageReport).map reportSection)) synth_has_reports_var with ⟨l, r, hlr⟩
  have hrt : (joinSep "\n" (([⟨"overall", "Overall", jsTrim (jsReplaceAll (getLastAssistantText ms1) STAGE_DONE_MARKER "")⟩,
        ⟨"linus", "Linus", jsTrim (jsReplaceAll (getLastAssistantText ms2) STAGE_DONE_MARKER "")⟩,
        ⟨"staff", "Staff", jsTrim (jsReplaceAll (getLastAssistantText ms3) STAGE_DONE_MARKER "")⟩] : List StageReport).map reportSection)) =
      reportSection ⟨"overall", "Overall", jsTrim (jsReplaceAll (getLastAssistantText ms1) STAGE_DONE_MARKER "")⟩ ++
      ("\n" ++ (reportSection ⟨"linus", "Linus", jsTrim (jsReplaceAll (getLastAssistantText ms2) STAGE_DONE_MARKER "")⟩ ++
      ("\n" ++ reportSection ⟨"staff", "Staff", jsTrim (jsReplaceAll (getLastAssistantText ms3) STAGE_DONE_MARKER "")⟩))) := rfl
  have hOv : containsStr "Overall" (joinSep "\n" (([⟨"overall", "Overall", jsTrim (jsReplaceAll (getLastAssistantText ms1) STAGE_DONE_MARKER "")⟩,
        ⟨"linus", "Linus", jsTrim (jsReplaceAll (getLastAssistantText ms2) STAGE_DONE_MARKER "")⟩,
        ⟨"staff", "Staff", jsTrim (jsReplaceAll (getLastAssistantText ms3) STAGE_DONE_MARKER "")⟩] : List StageReport).map reportSection)) := by
    rw [hrt]
    exact containsStr_appL _ _ _ (containsStr_section _ _ _)
  have hLi : containsStr "Linus" (joinSep "\n" (([⟨"overall", "Overall", jsTrim (jsReplaceAll (getLastAssistantText ms1) STAGE_DONE_MARKER "")⟩,
        ⟨"linus", "Linus", jsTrim (jsReplaceAll (getLastAssistantText ms2) STAGE_DONE_MARKER "")⟩,
        ⟨"staff", "Staff", jsTrim (jsReplaceAll (getLastAssistantText ms3) STAGE_DONE_MARKER "")⟩] : List StageReport).map reportSection)) := by
    rw [hrt]
    exact containsStr_appR _ _ _ (containsStr_appR _ _ _
      (containsStr_appL _ _ _ (containsStr_section _ _ _)))
  have hSt : containsStr "Staff" (joinSep "\n" (([⟨"overall", "Overall", jsTrim (jsReplaceAll (getLastAssistantText ms1) STAGE_DONE_MARKER "")⟩,
        ⟨"linus", "Linus", jsTrim (jsReplaceAll (getLastAssistantText ms2) STAGE_DONE_MARKER "")⟩,
        ⟨"staff", "Staff", jsTrim (jsReplaceAll (getLastAssistantText ms3) STAGE_DONE_MARKER "")⟩] : List StageReport).map reportSection)) := by
    rw [hrt]
    exact containsStr_appR _ _ _ (containsStr_appR _ _ _
      (containsStr_appR _ _ _ (containsStr_appR _ _ _ (containsStr_section _ _ _))))
  have hashRt : ('#' : Char) ∈ (joinSep "\n" (([⟨"overall", "Overall", jsTrim (jsReplaceAll (getLastAssistantText ms1) STAGE_DONE_MARKER "")⟩,
        ⟨"linus", "Linus", jsTrim (jsReplaceAll (getLastAssistantText ms2) STAGE_DONE_MARKER "")⟩,
        ⟨"staff", "Staff", jsTrim (jsReplaceAll (getLastAssistantText ms3) STAGE_DONE_MARKER "")⟩] : List StageReport).map reportSection)).data := by
    rw [hrt, String.data_append]
    refine List.mem_append_left _ ?_
    rw [reportSection]
    simp only [String.data_append]
    refine List.mem_append_left _ (List.mem_append_left _ (List.mem_append_left _
      (List.mem_append_left _ (List.mem_append_left _ ?_))))
    decide
  have hbp : buildStagePrompt defaultEnv t ⟨.synthesize, "synthesize", "review-synthesize", "Synthesis"⟩
      [⟨"overall", "Overall", jsTrim (jsReplaceAll (getLastAssistantText ms1) STAGE_DONE_MARKER "")⟩,
      ⟨"linus", "Linus", jsTrim (jsReplaceAll (getLastAssistantText ms2) STAGE_DONE_MARKER "")⟩,
      ⟨"staff", "Staff", jsTrim (jsReplaceAll (getLastAssistantText ms3) STAGE_DONE_MARKER "")⟩] =
      renderVars (loadPromptText defaultEnv "review-synthesize")
        [("REPORTS", joinSep "\n" (([⟨"overall", "Overall", jsTrim (jsReplaceAll (getLastAssistantText ms1) STAGE_DONE_MARKER "")⟩,
        ⟨"linus", "Linus", jsTrim (jsReplaceAll (getLastAssistantText ms2) STAGE_DONE_MARKER "")⟩,
        ⟨"staff", "Staff", jsTrim (jsReplaceAll (getLastAssistantText ms3) STAGE_DONE_MARKER "")⟩] : List StageReport).map reportSection))] := rfl
  have hne4 : jsTrim (buildStagePrompt defaultEnv t ⟨.synthesize, "synthesize", "review-synthesize", "Synthesis"⟩
      [⟨"overall", "Overall", jsTrim (jsReplaceAll (getLastAssistantText ms1) STAGE_DONE_MARKER "")⟩,
      ⟨"linus", "Linus", jsTrim (jsReplaceAll (getLastAssistantText ms2) STAGE_DONE_MARKER "")⟩,
      ⟨"staff", "Staff", jsTrim (jsReplaceAll (getLastAssistantText ms3) STAGE_DONE_MARKER "")⟩]) ≠ "" := by
    rw [hbp]
    refine jsTrim_ne_empty _ '#' ?_ (by decide)
    rw [hlr]
    exact List.mem_append_right _ (List.mem_append_left _ hashRt)
  have efinal : runThree defaultEnv t ms1 ms2 ms3 =
      ⟨({ suiteActive := true, suiteTarget := some t, suiteStageIndex := 3, suiteReports := [⟨"overall", "Overall", jsTrim (jsReplaceAll (getLastAssistantText ms1) STAGE_DONE_MARKER "")⟩, ⟨"linus", "Linus", jsTrim (jsReplaceAll (getLastAssistantText ms2) STAGE_DONE_MARKER "")⟩, ⟨"staff", "Staff", jsTrim (jsReplaceAll (getLastAssistantText ms3) STAGE_DONE_MARKER "")⟩], suiteFreshContext := true, suiteBoundaryCount := -1, boundaryNeedsCapture := true } : SuiteState),
        [updateSuiteStatus ({ suiteActive := true, suiteTarget := some t, suiteStageIndex := 3, suiteReports := [⟨"overall", "Overall", jsTrim (jsReplaceAll (getLastAssistantText ms1) STAGE_DONE_MARKER "")⟩, ⟨"linus", "Linus", jsTrim (jsReplaceAll (getLastAssistantText ms2) STAGE_DONE_MARKER "")⟩, ⟨"staff", "Staff", jsTrim (jsReplaceAll (getLastAssistantText ms3) STAGE_DONE_MARKER "")⟩], suiteFreshContext := true, suiteBoundaryCount := -1, boundaryNeedsCapture := true } : SuiteState)], [],
        [buildStagePrompt defaultEnv t ⟨.synthesize, "synthesize", "review-synthesize", "Synthesis"⟩
          [⟨"overall", "Overall", jsTrim (jsReplaceAll (getLastAssistantText ms1) STAGE_DONE_MARKER "")⟩,
          ⟨"linus", "Linus", jsTrim (jsReplaceAll (getLastAssistantText ms2) STAGE_DONE_MARKER "")⟩,
          ⟨"staff", "Staff", jsTrim (jsReplaceAll (getLastAssistantText ms3) STAGE_DONE_MARKER "")⟩]]⟩ := by
    rw [runThree, e0, e1s, e2s, e3, sendPrompt_success defaultEnv ({ suiteActive := true, suiteTarget := some t, suiteStageIndex := 3, suiteReports := [⟨"overall", "Overall", jsTrim (jsReplaceAll (getLastAssistantText ms1) STAGE_DONE_MARKER "")⟩, ⟨"linus", "Linus", jsTrim (jsReplaceAll (getLastAssistantText ms2) STAGE_DONE_MARKER "")⟩, ⟨"staff", "Staff", jsTrim (jsReplaceAll (getLastAssistantText ms3) STAGE_DONE_MARKER "")⟩], suiteFreshContext := true, suiteBoundaryCount := -1, boundaryNeedsCapture := true } : SuiteState) t
      ⟨.synthesize, "synthesize", "review-synthesize", "Synthesis"⟩ rfl rfl hne4]
  rw [efinal]
  refine ⟨rfl, rfl, rfl, buildStagePrompt defaultEnv t ⟨.synthesize, "synthesize", "review-synthesize", "Synthesis"⟩
    [⟨"overall", "Overall", jsTrim (jsReplaceAll (getLastAssistantText ms1) STAGE_DONE_MARKER "")⟩,
    ⟨"linus", "Linus", jsTrim (jsReplaceAll (getLastAssistantText ms2) STAGE_DONE_MARKER "")⟩,
    ⟨"staff", "Staff", jsTrim (jsReplaceAll (getLastAssistantText ms3) STAGE_DONE_MARKER "")⟩], rfl, ?_, ?_, ?_⟩
  · rw [hbp]
    exact containsL_mid l r hlr hOv
  · rw [hbp]
    exact containsL_mid l r hlr hLi
  · rw [hbp]
    exact containsL_mid l r hlr hSt

/-- C2 witness: a concrete fresh worktree run with three concrete non-empty
stage outputs. -/
theorem c2_witness :
    getLastAssistantText [⟨"assistant", [ .text "overall findings" ]⟩] ≠ "" ∧
    getLastAssistantText [⟨"assistant", [ .text "linus findings" ]⟩] ≠ "" ∧
    getLastAssistantText [⟨"assistant", [ .text "staff findings" ]⟩] ≠ "" ∧
    ((runThree defaultEnv .worktree [⟨"assistant", [ .text "overall findings" ]⟩]
        [⟨"assistant", [ .text "linus findings" ]⟩]
        [⟨"assistant", [ .text "staff findings" ]⟩]).state.suiteReports.length = 3 ∧
    (runThree defaultEnv .worktree [⟨"assistant", [ .text "overall findings" ]⟩]
        [⟨"assistant", [ .text "linus findings" ]⟩]
        [⟨"assistant", [ .text "staff findings" ]⟩]).state.suiteStageIndex = 3 ∧
    (runThree defaultEnv .worktree [⟨"assistant", [ .text "overall findings" ]⟩]
        [⟨"assistant", [ .text "linus findings" ]⟩]
        [⟨"assistant", [ .text "staff findings" ]⟩]).state.suiteReports.map
      (fun r => r.stageLabel) = ["Overall", "Linus", "Staff"] ∧
    ∃ p, (runThree defaultEnv .worktree [⟨"assistant", [ .text "overall findings" ]⟩]
        [⟨"assistant", [ .text "linus findings" ]⟩]
        [⟨"assistant", [ .text "staff findings" ]⟩]).sent = [p] ∧
      containsStr "Overall" p ∧ containsStr "Linus" p ∧ containsStr "Staff" p) :=
  ⟨by decide, by decide, by decide,
    c2_three_turns_then_synthesis .worktree
      [⟨"assistant", [ .text "overall findings" ]⟩]
      [⟨"assistant", [ .text "linus findings" ]⟩]
      [⟨"assistant", [ .text "staff findings" ]⟩]
      (by decide) (by decide) (by decide)⟩

theorem reviewCommand_state_cases (env : PromptEnv) (isIdle gitOk : Bool)
    (resolved : Option ReviewTarget) (s : SuiteState) :
    (reviewCommand env isIdle gitOk resolved s).state = s ∨
    (∃ t, resolved = some t ∧ s.suiteActive = false ∧
      reviewCommand env isIdle gitOk resolved s =
        ⟨(sendCurrentStagePrompt env (freshRun t)).state,
          (sendCurrentStagePrompt env (freshRun t)).statusSets,
          "Review started" :: (sendCurrentStagePrompt env (freshRun t)).notices,
          (sendCurrentStagePrompt env (freshRun t)).sent⟩) := by
  by_cases hi : isIdle = false
  · left
    simp [reviewCommand, hi]
  · by_cases hg : gitOk = false
    · left
      simp [reviewCommand, hi, hg]
    · cases resolved with
      | none =>
        left
        simp [reviewCommand, hi, hg]
      | some t =>
        by_cases hact : s.suiteActive = true
        · left
          simp [reviewCommand, hi, hg, hact]
        · right
          have hs' : s.suiteActive = false := by
            revert hact
            cases s.suiteActive <;> simp
          have hi' : isIdle = true := by
            revert hi
            cases isIdle <;> simp
          have hg' : gitOk = true := by
            revert hg
            cases gitOk <;> simp
          subst hi'
          subst hg'
          refine ⟨t, rfl, hs', ?_⟩
          rw [reviewCommand,
            if_neg (by decide : ¬(true = false)), if_neg (by decide : ¬(true = false))]
          simp only []
          rw [if_neg (by simp [hs'] : ¬(s.suiteActive = true))]
          rfl

theorem stageIdxInv_freshRun (t : ReviewTarget) : StageIdxInv (freshRun t) := by
  constructor
  · simp [freshRun, DEFAULT_SUITE_STAGES]
  · intro _
    simp [freshRun, DEFAULT_SUITE_STAGES]

theorem stageIdxInv_resetRun (s : SuiteState) : StageIdxInv (resetRun s) := by
  constructor
  · simp [resetRun, DEFAULT_SUITE_STAGES]
  · intro h
    simp [resetRun] at h

theorem reportsInv_resetRun (s : SuiteState) : ReportsInv (resetRun s) := by
  intro h
  simp [resetRun] at h

/-- C7: every way a run ends goes through the single `endSuite` teardown,
which resets the run to its initial shape (with `freshContextMode` still at
its initial value `true`) and clears the status surface: whenever any handler
leaves the run inactive, the resulting state is either untouched (the
handler was a no-op on an already-inactive run) or exactly
`initialSuiteState` with the status cleared. -/
theorem c7_single_teardown_path (env : PromptEnv) (s : SuiteState) (reason : String)
    (ms msc : List Message) (hasUI : Bool) (source : String) (isIdle gitOk : Bool)
    (resolved : Option ReviewTarget) (hf : s.suiteFreshContext = true) :
    ((endSuite s reason).state = initialSuiteState ∧
      (endSuite s reason).statusSets = [none] ∧
      (endSuite s reason).notices = ["Review suite ended: " ++ reason]) ∧
    ((onAgentEnd env s ms).state.suiteActive = false →
      (onAgentEnd env s ms).state = s ∨
        ((onAgentEnd env s ms).state = initialSuiteState ∧
          (onAgentEnd env s ms).statusSets = [none])) ∧
    ((onInput hasUI source s).1.state.suiteActive = false →
      (onInput hasUI source s).1.state = s ∨
        ((onInput hasUI source s).1.state = initialSuiteState ∧
          (onInput hasUI source s).1.statusSets = [none])) ∧
    ((sendCurrentStagePrompt env s).state.suiteActive = false →
      (sendCurrentStagePrompt env s).state = s ∨
        ((sendCurrentStagePrompt env s).state = initialSuiteState ∧
          (sendCurrentStagePrompt env s).statusSets = [none])) ∧
    ((reviewCommand env isIdle gitOk resolved s).state.suiteActive = false →
      (reviewCommand env isIdle gitOk resolved s).state = s ∨
        ((reviewCommand env isIdle gitOk resolved s).state = initialSuiteState ∧
          (reviewCommand env isIdle gitOk resolved s).statusSets = [none])) ∧
    ((onContext s msc).1.suiteActive = false → (onContext s msc).1 = s) := by
  refine ⟨⟨?_, ?_, ?_⟩, ?_, ?_, ?_, ?_, ?_⟩
  · rw [endSuite_eq]
    exact resetRun_eq_initial s hf
  · rw [endSuite_eq]
  · rw [endSuite_eq]
  · intro h
    rcases onAgentEnd_cases env s ms with hcase | ⟨r2, hcase⟩ |
      ⟨stage, hst, hact, s2, ha2, ht2, hi2, hf2, hb2, hc2, hrep, hor⟩
    · left
      rw [hcase]
    · right
      rw [hcase, endSuite_eq]
      exact ⟨resetRun_eq_initial s hf, rfl⟩
    · have hf2' : s2.suiteFreshContext = true := by rw [hf2, hf]
      rcases hor with ⟨_, hcase⟩ | ⟨_, hcase⟩
      · right
        rw [hcase, endSuite_eq]
        exact ⟨resetRun_eq_initial s2 hf2', rfl⟩
      · rcases sendPrompt_cases env s2 with hsp | ⟨r2, hsp⟩
        · exfalso
          rw [hcase, hsp, ha2] at h
          cases h
        · right
          rw [hcase, hsp, endSuite_eq]
          exact ⟨resetRun_eq_initial s2 hf2', rfl⟩
  · intro _
    by_cases hui : hasUI = false
    · left
      rw [onInput, if_pos hui]
    · rw [onInput, if_neg hui]
      by_cases hcond : s.suiteActive = true ∧ source = "interactive"
      · rw [if_pos hcond]
        right
        rw [endSuite_eq]
        exact ⟨resetRun_eq_initial s hf, rfl⟩
      · rw [if_neg hcond]
        left
        rfl
  · intro h
    rcases sendPrompt_cases env s with hsp | ⟨r2, hsp⟩
    · left
      rw [hsp]
    · right
      rw [hsp, endSuite_eq]
      exact ⟨resetRun_eq_initial s hf, rfl⟩
  · intro h
    rcases reviewCommand_state_cases env isIdle gitOk resolved s with hrc | ⟨t, _, _, hrc⟩
    · left
      exact hrc
    · rcases sendPrompt_cases env (freshRun t) with hsp | ⟨r2, hsp⟩
      · exfalso
        rw [hrc] at h
        simp only [hsp] at h
        cases h
      · right
        rw [hrc]
        simp only [hsp, endSuite_eq]
        exact ⟨resetRun_eq_initial (freshRun t) rfl, trivial⟩
  · intro h
    rcases onContext_fst s msc with hcf | hcf
    · exact hcf
    · have ha : s.suiteActive = false := by
        rw [hcf] at h
        exact h
      rw [onContext_inactive s msc ha]

/-- C7 witness: an active fresh-context run at stage 0. -/
theorem c7_witness :
    (freshRun .worktree).suiteFreshContext = true ∧
    (((endSuite (freshRun .worktree) "user interrupted").state = initialSuiteState ∧
      (endSuite (freshRun .worktree) "user interrupted").statusSets = [none] ∧
      (endSuite (freshRun .worktree) "user interrupted").notices =
        ["Review suite ended: " ++ "user interrupted"]) ∧
    ((onAgentEnd defaultEnv (freshRun .worktree) []).state.suiteActive = false →
      (onAgentEnd defaultEnv (freshRun .worktree) []).state = freshRun .worktree ∨
        ((onAgentEnd defaultEnv (freshRun .worktree) []).state = initialSuiteState ∧
          (onAgentEnd defaultEnv (freshRun .worktree) []).statusSets = [none])) ∧
    ((onInput true "interactive" (freshRun .worktree)).1.state.suiteActive = false →
      (onInput true "interactive" (freshRun .worktree)).1.state = freshRun .worktree ∨
        ((onInput true "interactive" (freshRun .worktree)).1.state = initialSuiteState ∧
          (onInput true "interactive" (freshRun .worktree)).1.statusSets = [none])) ∧
    ((sendCurrentStagePrompt defaultEnv (freshRun .worktree)).state.suiteActive = false →
      (sendCurrentStagePrompt defaultEnv (freshRun .worktree)).state = freshRun .worktree ∨
        ((sendCurrentStagePrompt defaultEnv (freshRun .worktree)).state = initialSuiteState ∧
          (sendCurrentStagePrompt defaultEnv (freshRun .worktree)).statusSets = [none])) ∧
    ((reviewCommand defaultEnv true true (some .staged) (freshRun .worktree)).state.suiteActive = false →
      (reviewCommand defaultEnv true true (some .staged) (freshRun .worktree)).state = freshRun .worktree ∨
        ((reviewCommand defaultEnv true true (some .staged) (freshRun .worktree)).state = initialSuiteState ∧
          (reviewCommand defaultEnv true true (some .staged) (freshRun .worktree)).statusSets = [none])) ∧
    ((onContext (freshRun .worktree) []).1.suiteActive = false →
      (onContext (freshRun .worktree) []).1 = freshRun .worktree)) :=
  ⟨rfl, c7_single_teardown_path defaultEnv (freshRun .worktree) "user interrupted"
    [] [] true "interactive" true true (some .staged) rfl⟩

/-- C8: `stageIndex` stays between 0 and the pipeline length, and an active
run never sits at the terminal index: the invariant holds initially and is
preserved by every handler. -/
theorem c8_stage_index_invariant (env : PromptEnv) (s : SuiteState) (ms msc : List Message)
    (hasUI : Bool) (source : String) (isIdle gitOk : Bool) (resolved : Option ReviewTarget)
    (hinv : StageIdxInv s) :
    StageIdxInv initialSuiteState ∧
    StageIdxInv (onAgentEnd env s ms).state ∧
    StageIdxInv (onContext s msc).1 ∧
    StageIdxInv (onInput hasUI source s).1.state ∧
    StageIdxInv (sendCurrentStagePrompt env s).state ∧
    StageIdxInv (reviewCommand env isIdle gitOk resolved s).state := by
  have hsend : ∀ u : SuiteState, StageIdxInv u → StageIdxInv (sendCurrentStagePrompt env u).state := by
    intro u hu
    rcases sendPrompt_cases env u with hsp | ⟨r2, hsp⟩
    · rw [hsp]
      exact hu
    · rw [hsp, endSuite_eq]
      exact stageIdxInv_resetRun u
  refine ⟨by unfold StageIdxInv; decide, ?_, ?_, ?_, hsend s hinv, ?_⟩
  · rcases onAgentEnd_cases env s ms with hcase | ⟨r2, hcase⟩ |
      ⟨stage, hst, hact, s2, ha2, ht2, hi2, hf2, hb2, hc2, hrep, hor⟩
    · rw [hcase]
      exact hinv
    · rw [hcase, endSuite_eq]
      exact stageIdxInv_resetRun s
    · rcases hor with ⟨_, hcase⟩ | ⟨hlt, hcase⟩
      · rw [hcase, endSuite_eq]
        exact stageIdxInv_resetRun s2
      · rw [hcase]
        exact hsend s2 ⟨Nat.le_of_lt hlt, fun _ => hlt⟩
  · rcases onContext_fst s msc with hcf | hcf
    · rw [hcf]
      exact hinv
    · rw [hcf]
      exact hinv
  · by_cases hui : hasUI = false
    · rw [onInput, if_pos hui]
      exact hinv
    · rw [onInput, if_neg hui]
      by_cases hcond : s.suiteActive = true ∧ source = "interactive"
      · rw [if_pos hcond]
        exact stageIdxInv_resetRun s
      · rw [if_neg hcond]
        exact hinv
  · rcases reviewCommand_state_cases env isIdle gitOk resolved s with hrc | ⟨t, _, _, hrc⟩
    · rw [hrc]
      exact hinv
    · rw [hrc]
      exact hsend (freshRun t) (stageIdxInv_freshRun t)

/-- C8 witness: an active mid-pipeline state satisfies the invariant, and so
do all handler results from it. -/
theorem c8_witness :
    StageIdxInv ({ freshRun .worktree with suiteStageIndex := 2 } : SuiteState) ∧
    (StageIdxInv initialSuiteState ∧
    StageIdxInv (onAgentEnd defaultEnv { freshRun .worktree with suiteStageIndex := 2 } []).state ∧
    StageIdxInv (onContext { freshRun .worktree with suiteStageIndex := 2 } []).1 ∧
    StageIdxInv (onInput true "interactive" { freshRun .worktree with suiteStageIndex := 2 }).1.state ∧
    StageIdxInv (sendCurrentStagePrompt defaultEnv { freshRun .worktree with suiteStageIndex := 2 }).state ∧
    StageIdxInv (reviewCommand defaultEnv true true none { freshRun .worktree with suiteStageIndex := 2 }).state) :=
  ⟨by unfold StageIdxInv; decide, c8_stage_index_invariant defaultEnv
    { freshRun .worktree with suiteStageIndex := 2 } [] [] true "interactive" true true none
    (by unfold StageIdxInv; decide)⟩

theorem reportsInv_freshRun (t : ReviewTarget) : ReportsInv (freshRun t) := by
  intro _
  constructor
  · simp [freshRun]
  · simp [freshRun, DEFAULT_SUITE_STAGES]

/-- C10: while a run is active the accumulated reports are exactly the ids
and labels of the first `min(stageIndex, 3)` review stages in pipeline order
(so the list never exceeds 3 entries and the synthesize stage never appends):
the shape invariant holds initially, is preserved by every handler, and
forces `reports.length = min(stageIndex, 3) ≤ 3`. -/
theorem c10_reports_shape (env : PromptEnv) (s : SuiteState) (ms msc : List Message)
    (hasUI : Bool) (source : String) (isIdle gitOk : Bool) (resolved : Option ReviewTarget)
    (hinv : ReportsInv s) :
    ReportsInv initialSuiteState ∧
    ReportsInv (onAgentEnd env s ms).state ∧
    ReportsInv (onContext s msc).1 ∧
    ReportsInv (onInput hasUI source s).1.state ∧
    ReportsInv (sendCurrentStagePrompt env s).state ∧
    ReportsInv (reviewCommand env isIdle gitOk resolved s).state ∧
    (s.suiteActive = true →
      s.suiteReports.length = min s.suiteStageIndex 3 ∧ s.suiteReports.length ≤ 3) := by
  have hsend : ∀ u : SuiteState, ReportsInv u → ReportsInv (sendCurrentStagePrompt env u).state := by
    intro u hu
    rcases sendPrompt_cases env u with hsp | ⟨r2, hsp⟩
    · rw [hsp]
      exact hu
    · rw [hsp, endSuite_eq]
      exact reportsInv_resetRun u
  refine ⟨by intro h; simp [initialSuiteState] at h, ?_, ?_, ?_, hsend s hinv, ?_, ?_⟩
  · rcases onAgentEnd_cases env s ms with hcase | ⟨r2, hcase⟩ |
      ⟨stage, hst, hact, s2, ha2, ht2, hi2, hf2, hb2, hc2, hrep, hor⟩
    · rw [hcase]
      exact hinv
    · rw [hcase, endSuite_eq]
      exact reportsInv_resetRun s
    · rcases hor with ⟨_, hcase⟩ | ⟨hlt, hcase⟩
      · rw [hcase, endSuite_eq]
        exact reportsInv_resetRun s2
      · rcases hrep with ⟨hk, txt, hreps⟩ | ⟨hk, hreps⟩
        · have hltr : s.suiteStageIndex < 3 := currentStage_review_lt s stage hst hk
          have hmap := (hinv hact).2
          have hs2inv : ReportsInv s2 := by
            intro _
            constructor
            · rw [hi2]
              omega
            · rw [hi2, hreps, List.map_append, hmap]
              rcases (by omega : s.suiteStageIndex = 0 ∨ s.suiteStageIndex = 1 ∨
                  s.suiteStageIndex = 2) with h0 | h0 | h0 <;>
                · rw [currentStage, h0] at hst
                  rw [h0]
                  simp only [DEFAULT_SUITE_STAGES, List.getElem?_cons_zero,
                    List.getElem?_cons_succ, Option.some_inj] at hst
                  subst hst
                  simp [DEFAULT_SUITE_STAGES]
          rw [hcase]
          exact hsend s2 hs2inv
        · exfalso
          have h3 := currentStage_synth_eq s stage hst hk
          rw [hi2, h3] at hlt
          simp [DEFAULT_SUITE_STAGES] at hlt
  · rcases onContext_fst s msc with hcf | hcf
    · rw [hcf]
      exact hinv
    · rw [hcf]
      exact hinv
  · by_cases hui : hasUI = false
    · rw [onInput, if_pos hui]
      exact hinv
    · rw [onInput, if_neg hui]
      by_cases hcond : s.suiteActive = true ∧ source = "interactive"
      · rw [if_pos hcond]
        exact reportsInv_resetRun s
      · rw [if_neg hcond]
        exact hinv
  · rcases reviewCommand_state_cases env isIdle gitOk resolved s with hrc | ⟨t, _, _, hrc⟩
    · rw [hrc]
      exact hinv
    · rw [hrc]
      exact hsend (freshRun t) (reportsInv_freshRun t)
  · intro hact
    have hmap := (hinv hact).2
    have hlen := congrArg List.length hmap
    rw [List.length_map, List.length_map, List.length_take] at hlen
    have hdl : DEFAULT_SUITE_STAGES.length = 4 := rfl
    rw [hdl] at hlen
    constructor <;> omega

/-- C10 witness: an active run at stage 2 whose two reports carry the first
two pipeline stages' ids and labels satisfies the shape invariant; all
handler results preserve it and the length equals `min(stageIndex, 3)`. -/
theorem c10_witness :
    ReportsInv (⟨true, some .worktree, 2,
      [⟨"overall", "Overall", "a"⟩, ⟨"linus", "Linus", "b"⟩], true, 4, false⟩ : SuiteState) ∧
    (ReportsInv initialSuiteState ∧
    ReportsInv (onAgentEnd defaultEnv (⟨true, some .worktree, 2,
      [⟨"overall", "Overall", "a"⟩, ⟨"linus", "Linus", "b"⟩], true, 4, false⟩ : SuiteState) []).state ∧
    ReportsInv (onContext (⟨true, some .worktree, 2,
      [⟨"overall", "Overall", "a"⟩, ⟨"linus", "Linus", "b"⟩], true, 4, false⟩ : SuiteState) []).1 ∧
    ReportsInv (onInput true "interactive" (⟨true, some .worktree, 2,
      [⟨"overall", "Overall", "a"⟩, ⟨"linus", "Linus", "b"⟩], true, 4, false⟩ : SuiteState)).1.state ∧
    ReportsInv (sendCurrentStagePrompt defaultEnv (⟨true, some .worktree, 2,
      [⟨"overall", "Overall", "a"⟩, ⟨"linus", "Linus", "b"⟩], true, 4, false⟩ : SuiteState)).state ∧
    ReportsInv (reviewCommand defaultEnv true true none (⟨true, some .worktree, 2,
      [⟨"overall", "Overall", "a"⟩, ⟨"linus", "Linus", "b"⟩], true, 4, false⟩ : SuiteState)).state ∧
    ((⟨true, some .worktree, 2,
      [⟨"overall", "Overall", "a"⟩, ⟨"linus", "Linus", "b"⟩], true, 4, false⟩ : SuiteState).suiteActive = true →
      (⟨true, some .worktree, 2,
        [⟨"overall", "Overall", "a"⟩, ⟨"linus", "Linus", "b"⟩], true, 4, false⟩ : SuiteState).suiteReports.length =
        min (⟨true, some .worktree, 2,
          [⟨"overall", "Overall", "a"⟩, ⟨"linus", "Linus", "b"⟩], true, 4, false⟩ : SuiteState).suiteStageIndex 3 ∧
      (⟨true, some .worktree, 2,
        [⟨"overall", "Overall", "a"⟩, ⟨"linus", "Linus", "b"⟩], true, 4, false⟩ : SuiteState).suiteReports.length ≤ 3)) :=
  ⟨by unfold ReportsInv; decide,
    c10_reports_shape defaultEnv (⟨true, some .worktree, 2,
      [⟨"overall", "Overall", "a"⟩, ⟨"linus", "Linus", "b"⟩], true, 4, false⟩ : SuiteState)
      [] [] true "interactive" true true none (by unfold ReportsInv; decide)⟩

end PiReview
